import Mathlib

/-!
Verification of the wolfSSL PKCS#7 / CMS message processor
(src/wolfcrypt/src/pkcs7.c) against its natural-language specification.

The development shallowly embeds the relevant parts of pkcs7.c.  Byte
buffers are lists of naturals (each element a byte value), C `int`
results are `Int`, fallible operations return `Except Int`.  External
collaborators that are out of scope of the repository (the ASN.1
primitive codec asn.c, the hash / RSA / ECC primitive layer, and the
numeric values of the error codes from the error header) are modelled
from the specification; every such definition carries a doc comment
saying so.  Everything translated from pkcs7.c keeps the source name.
-/

/-! ## Error codes and enum constants -/

/-- Modelled from the spec: the error taxonomy of section 7.  The numeric
error header is not part of src/, so the exact numbers are modelled; the
development only relies on the codes being negative and pairwise
distinct. -/
def BAD_FUNC_ARG : Int := -173

/-- Modelled from the spec: allocation failure code. -/
def MEMORY_E : Int := -125

/-- Modelled from the spec: named output buffer insufficient. -/
def BUFFER_E : Int := -132

/-- Modelled from the spec: ASN.1 parse error. -/
def ASN_PARSE_E : Int := -140

/-- Modelled from the spec: ASN.1 version error. -/
def ASN_VERSION_E : Int := -141

/-- Modelled from the spec: expected zero byte in ASN.1 input. -/
def ASN_EXPECT_0_E : Int := -146

/-- Modelled from the spec: BER indefinite length rejected. -/
def BER_INDEF_E : Int := -161

/-- Modelled from the spec: unknown or unsupported algorithm identifier. -/
def ALGO_ID_E : Int := -143

/-- Modelled from the spec: unknown hash type. -/
def HASH_TYPE_E : Int := -163

/-- Modelled from the spec: outer content type mismatch. -/
def PKCS7_OID_E : Int := -210

/-- Modelled from the spec: no matching recipient. -/
def PKCS7_RECIP_E : Int := -211

/-- Modelled from the spec: no signer present when one is required. -/
def PKCS7_NO_SIGNER_E : Int := -212

/-- Modelled from the spec: signature verification failed. -/
def SIG_VERIFY_E : Int := -188

/-- Modelled from the spec: invalid signer identifier type. -/
def SKID_E : Int := -184

/-- Modelled from the spec: RSA padding error, surfaced by the RSA
primitive when a decrypted block fails the PKCS#1 padding check. -/
def RSA_PAD_E : Int := -201

/-- Modelled from the spec: unsupported key wrap algorithm. -/
def BAD_KEYWRAP_ALG_E : Int := -213

/-- Model marker for undefined behaviour: the C code would dereference a
NULL content pointer on this path (no C error code corresponds). -/
def NULL_DEREF_E : Int := -999

/-- Modelled from the spec: OID sum of the rsaEncryption public key
algorithm, as used by the external ASN.1 layer. -/
def RSAk : Nat := 645

/-- Modelled from the spec: OID sum of the ECDSA public key algorithm. -/
def ECDSAk : Nat := 518

/-- Modelled from the spec: content type OID sum for pkcs7 data. -/
def DATA : Nat := 651

/-- Modelled from the spec: content type OID sum for signedData. -/
def SIGNED_DATA : Nat := 652

/-- Modelled from the spec: content type OID sum for envelopedData. -/
def ENVELOPED_DATA : Nat := 653

/-- Modelled from the spec: content type OID sum for encryptedData. -/
def ENCRYPTED_DATA : Nat := 656

/-- Modelled from the spec: hash OID sum for SHA-1. -/
def SHAh : Nat := 88

/-- Modelled from the spec: hash OID sum for SHA-224. -/
def SHA224h : Nat := 417

/-- Modelled from the spec: hash OID sum for SHA-256. -/
def SHA256h : Nat := 414

/-- Modelled from the spec: hash OID sum for SHA-384. -/
def SHA384h : Nat := 415

/-- Modelled from the spec: hash OID sum for SHA-512. -/
def SHA512h : Nat := 416

/-- Modelled from the spec: block cipher OID sum for AES-128-CBC. -/
def AES128CBCb : Nat := 414

/-- Modelled from the spec: block cipher OID sum for AES-192-CBC. -/
def AES192CBCb : Nat := 434

/-- Modelled from the spec: block cipher OID sum for AES-256-CBC. -/
def AES256CBCb : Nat := 454

/-- Modelled from the spec: block cipher OID sum for DES-CBC. -/
def DESb : Nat := 69

/-- Modelled from the spec: block cipher OID sum for 3DES-CBC. -/
def DES3b : Nat := 652

/-- Modelled from the spec: key wrap OID sum for AES-128 key wrap. -/
def AES128_WRAP : Nat := 417

/-- Modelled from the spec: key wrap OID sum for AES-192 key wrap. -/
def AES192_WRAP : Nat := 437

/-- Modelled from the spec: key wrap OID sum for AES-256 key wrap. -/
def AES256_WRAP : Nat := 457

/-- Modelled from the spec: signature algorithm id for SHA-256 with RSA. -/
def CTC_SHA256wRSA : Nat := 655

/-- Modelled from the spec: signature algorithm id for SHA-1 with RSA. -/
def CTC_SHAwRSA : Nat := 649

/-- Modelled from the spec: signature algorithm id for SHA-384 with RSA. -/
def CTC_SHA384wRSA : Nat := 656

/-- Modelled from the spec: signature algorithm id for SHA-512 with RSA. -/
def CTC_SHA512wRSA : Nat := 657

/-- Modelled from the spec: signature algorithm id for SHA-224 with RSA. -/
def CTC_SHA224wRSA : Nat := 658

/-- Modelled from the spec: signature algorithm id for SHA-1 with ECDSA. -/
def CTC_SHAwECDSA : Nat := 520

/-- Modelled from the spec: signature algorithm id for SHA-224 with ECDSA. -/
def CTC_SHA224wECDSA : Nat := 523

/-- Modelled from the spec: signature algorithm id for SHA-256 with ECDSA. -/
def CTC_SHA256wECDSA : Nat := 524

/-- Modelled from the spec: signature algorithm id for SHA-384 with ECDSA. -/
def CTC_SHA384wECDSA : Nat := 525

/-- Modelled from the spec: signature algorithm id for SHA-512 with ECDSA. -/
def CTC_SHA512wECDSA : Nat := 526

/-- Signer identifier choice IssuerAndSerialNumber (pkcs7.h sidType). -/
def SID_ISSUER_AND_SERIAL_NUMBER : Nat := 1

/-- Signer identifier choice SubjectKeyIdentifier (pkcs7.h sidType). -/
def SID_SUBJECT_KEY_IDENTIFIER : Nat := 2

/-- Subject key identifier and name hash size used throughout pkcs7.c. -/
def KEYID_SIZE : Nat := 20

/-- Maximum number of certificates retained by the SignedData decoder. -/
def MAX_PKCS7_CERTS : Nat := 4

/-- Scratch size of the DigestInfo buffer in pkcs7.c (sum of the maxima
of the sequence header, algorithm id, octet string header and digest). -/
def MAX_PKCS7_DIGEST_SZ : Nat := 93

/-- Maximum content type OID size accepted by wc_PKCS7_SetContentType. -/
def MAX_OID_SZ : Nat := 32

/-! ## DER emit helpers

These model the external ASN.1 codec (asn.c), which the spec lists as an
out-of-scope collaborator; they are modelled from the spec and X.690. -/

/-- Modelled from the spec: DER definite length encoding (asn.c
SetLength).  Short form below 0x80, otherwise 0x80 plus the byte count
followed by the length in big-endian. -/
def setLength (n : Nat) : List Nat :=
  if n < 128 then [n]
  else if n < 256 then [0x81, n]
  else if n < 65536 then [0x82, n / 256, n % 256]
  else if n < 16777216 then [0x83, n / 65536, n / 256 % 256, n % 256]
  else [0x84, n / 16777216, n / 65536 % 256, n / 256 % 256, n % 256]

/-- Modelled from the spec: asn.c SetSequence, universal constructed
SEQUENCE header. -/
def setSequence (n : Nat) : List Nat := 0x30 :: setLength n

/-- Modelled from the spec: asn.c SetSet, universal constructed SET
header. -/
def setSet (n : Nat) : List Nat := 0x31 :: setLength n

/-- Modelled from the spec: asn.c SetOctetString, universal primitive
OCTET STRING header. -/
def setOctetString (n : Nat) : List Nat := 0x04 :: setLength n

/-- Modelled from the spec: asn.c SetExplicit, context specific
constructed header with the given tag number. -/
def setExplicit (num : Nat) (n : Nat) : List Nat := (0xA0 + num) :: setLength n

/-- Modelled from the spec: asn.c SetImplicit.  A SEQUENCE or SET keeps
the constructed bit, a primitive type loses it; the universal tag is
replaced by context specific with the given number. -/
def setImplicit (tag num n : Nat) : List Nat :=
  (if tag = 0x10 ∨ tag = 0x11 then 0xA0 + num else 0x80 + num) :: setLength n

/-- Modelled from the spec: asn.c SetMyVersion, a one-byte INTEGER. -/
def setMyVersion (v : Nat) : List Nat := [0x02, 0x01, v]

/-- Modelled from the spec: asn.c SetSerialNumber, an INTEGER holding
the serial bytes. -/
def setSerialNumber (sn : List Nat) : List Nat := 0x02 :: setLength sn.length ++ sn

/-! ## DER parse helpers (modelled from the spec, asn.c is external) -/

/-- Modelled from the spec: asn.c GetLength.  Reads a DER length at
index i, returns the length and the index after it; enforces that the
length bytes and the announced content fit below maxIdx.  A result of
none stands for the negative return of the C function. -/
def getLength (m : List Nat) (i maxIdx : Nat) : Option (Nat × Nat) :=
  match m[i]? with
  | none => none
  | some b =>
    if b < 0x80 then
      if i + 1 + b ≤ maxIdx then some (b, i + 1) else none
    else
      let nb := b - 0x80
      if nb > 4 then none
      else
        let rest := (m.drop (i + 1)).take nb
        if rest.length = nb then
          let len := rest.foldl (fun a x => a * 256 + x) 0
          if i + 1 + nb + len ≤ maxIdx then some (len, i + 1 + nb) else none
        else none

/-- Modelled from the spec: asn.c GetASNHeader specialised to a fixed
tag; reads the tag byte then the length. -/
def getASNHeader (tag : Nat) (m : List Nat) (i maxIdx : Nat) : Option (Nat × Nat) :=
  match m[i]? with
  | some b => if b = tag then getLength m (i + 1) maxIdx else none
  | none => none

/-- Modelled from the spec: asn.c GetSequence. -/
def getSequence (m : List Nat) (i maxIdx : Nat) : Option (Nat × Nat) :=
  getASNHeader 0x30 m i maxIdx

/-- Modelled from the spec: asn.c GetSet. -/
def getSet (m : List Nat) (i maxIdx : Nat) : Option (Nat × Nat) :=
  getASNHeader 0x31 m i maxIdx

/-- Modelled from the spec: asn.c GetMyVersion, a one byte INTEGER. -/
def getMyVersion (m : List Nat) (i maxIdx : Nat) : Option (Nat × Nat) :=
  if i + 3 > maxIdx then none
  else match m[i]?, m[i+1]?, m[i+2]? with
  | some t, some l, some v => if t = 0x02 ∧ l = 0x01 then some (v, i + 3) else none
  | _, _, _ => none

/-- Modelled from the spec: asn.c GetASNObjectId; reads the OBJECT
IDENTIFIER tag and length, returns the value length and the index of
the value octets. -/
def getASNObjectId (m : List Nat) (i maxIdx : Nat) : Option (Nat × Nat) :=
  getASNHeader 0x06 m i maxIdx

/-- Modelled from the spec: asn.c GetObjectId; parses an OBJECT
IDENTIFIER and returns the sum of its value octets (the oid sum used
throughout wolfSSL) together with the index after the value. -/
def getObjectId (m : List Nat) (i maxIdx : Nat) : Option (Nat × Nat) :=
  match getASNObjectId m i maxIdx with
  | none => none
  | some (len, j) =>
    let v := (m.drop j).take len
    if v.length = len then some (v.foldl (· + ·) 0, j + len) else none

/-- Translation of wc_GetContentType (pkcs7.c): parse an OID and return
its sum. -/
def wc_GetContentType (m : List Nat) (i maxIdx : Nat) : Option (Nat × Nat) :=
  getObjectId m i maxIdx

/-- Modelled from the spec: asn.c GetAlgoId.  Parses the
AlgorithmIdentifier SEQUENCE header and the algorithm OID, then absorbs
an optional NULL parameter; the index is left inside the sequence, so a
following OCTET STRING parameter (the IV case) stays available to the
caller. -/
def getAlgoId (m : List Nat) (i maxIdx : Nat) : Option (Nat × Nat) :=
  match getSequence m i maxIdx with
  | none => none
  | some (_, j) =>
    match getObjectId m j maxIdx with
    | none => none
    | some (oid, k) =>
      match m[k]? with
      | some 0x05 =>
        match m[k+1]? with
        | some 0x00 => some (oid, k + 2)
        | _ => none
      | _ => some (oid, k)

/-! ## Content type emission and algorithm registry (pkcs7.c) -/

/-- OID value octets of the pkcs7 data content type. -/
def dataOidVal : List Nat := [0x2A, 0x86, 0x48, 0x86, 0xF7, 0x0D, 0x01, 0x07, 0x01]

/-- OID value octets of the pkcs7 signedData content type. -/
def signedDataOidVal : List Nat := [0x2A, 0x86, 0x48, 0x86, 0xF7, 0x0D, 0x01, 0x07, 0x02]

/-- OID value octets of the pkcs7 envelopedData content type. -/
def envelopedDataOidVal : List Nat := [0x2A, 0x86, 0x48, 0x86, 0xF7, 0x0D, 0x01, 0x07, 0x03]

/-- OID value octets of the pkcs7 encryptedData content type. -/
def encryptedDataOidVal : List Nat := [0x2A, 0x86, 0x48, 0x86, 0xF7, 0x0D, 0x01, 0x07, 0x06]

/-- Translation of wc_SetContentType (pkcs7.c lines 64-161): map a
content type tag to its DER OBJECT IDENTIFIER bytes.  An unknown tag
yields the empty list, mirroring the zero return of the C function. -/
def wc_SetContentType (t : Nat) : List Nat :=
  let val : List Nat :=
    if t = DATA then dataOidVal
    else if t = SIGNED_DATA then signedDataOidVal
    else if t = ENVELOPED_DATA then envelopedDataOidVal
    else if t = ENCRYPTED_DATA then encryptedDataOidVal
    else []
  if val = [] then [] else 0x06 :: setLength val.length ++ val

/-- Translation of wc_PKCS7_GetOIDBlockSize (pkcs7.c lines 177-207). -/
def wc_PKCS7_GetOIDBlockSize (oid : Nat) : Int :=
  if oid = AES128CBCb ∨ oid = AES192CBCb ∨ oid = AES256CBCb then 16
  else if oid = DESb ∨ oid = DES3b then 8
  else ALGO_ID_E

/-- Translation of wc_PKCS7_GetOIDKeySize (pkcs7.c lines 211-251). -/
def wc_PKCS7_GetOIDKeySize (oid : Nat) : Int :=
  if oid = AES128CBCb ∨ oid = AES128_WRAP then 16
  else if oid = AES192CBCb ∨ oid = AES192_WRAP then 24
  else if oid = AES256CBCb ∨ oid = AES256_WRAP then 32
  else if oid = DESb then 8
  else if oid = DES3b then 24
  else ALGO_ID_E

/-- Modelled from the spec: composition of wc_OidGetHash and
wc_HashGetDigestSize from the external hash layer, keyed directly on
the hash OID sum. -/
def wc_HashGetDigestSize_oid (hashOID : Nat) : Int :=
  if hashOID = SHAh then 20
  else if hashOID = SHA224h then 28
  else if hashOID = SHA256h then 32
  else if hashOID = SHA384h then 48
  else if hashOID = SHA512h then 64
  else HASH_TYPE_E

/-- Modelled from the spec: DER bytes of the hash algorithm OID (tag,
length and value octets), for the algorithms the development needs. -/
def hashOidBytesOf (hashOID : Nat) : List Nat :=
  if hashOID = SHA256h then [0x06, 0x09, 0x60, 0x86, 0x48, 0x01, 0x65, 0x03, 0x04, 0x02, 0x01]
  else if hashOID = SHAh then [0x06, 0x05, 0x2B, 0x0E, 0x03, 0x02, 0x1A]
  else []

/-- Modelled from the spec: asn.c SetAlgoID for a hash algorithm with
NULL parameters (the AlgorithmIdentifier used inside DigestInfo). -/
def setAlgoIDHash (hashOID : Nat) : List Nat :=
  let ob := hashOidBytesOf hashOID
  setSequence (ob.length + 2) ++ ob ++ [0x05, 0x00]

/-- Modelled from the spec: DER bytes of a signature algorithm OID. -/
def sigOidBytesOf (sigOID : Nat) : List Nat :=
  if sigOID = CTC_SHA256wRSA then
    [0x06, 0x09, 0x2A, 0x86, 0x48, 0x86, 0xF7, 0x0D, 0x01, 0x01, 0x0B]
  else if sigOID = CTC_SHA256wECDSA then
    [0x06, 0x08, 0x2A, 0x86, 0x48, 0xCE, 0x3D, 0x04, 0x03, 0x02]
  else []

/-- Modelled from the spec: asn.c SetAlgoID for a signature algorithm
with NULL parameters. -/
def setAlgoIDSig (sigOID : Nat) : List Nat :=
  let ob := sigOidBytesOf sigOID
  setSequence (ob.length + 2) ++ ob ++ [0x05, 0x00]

/-- Modelled from the spec: DER bytes of a block cipher OID. -/
def blkOidBytesOf (oid : Nat) : List Nat :=
  if oid = AES128CBCb then [0x06, 0x09, 0x60, 0x86, 0x48, 0x01, 0x65, 0x03, 0x04, 0x01, 0x02]
  else []

/-- Modelled from the spec: asn.c SetAlgoID for a block cipher whose
parameter bytes (the IV OCTET STRING) are appended by the caller; the
extra length is folded into the sequence header. -/
def setAlgoIDBlk (oid : Nat) (extraSz : Nat) : List Nat :=
  let ob := blkOidBytesOf oid
  setSequence (ob.length + extraSz) ++ ob

/-- DER constructor used to state structural properties: a SEQUENCE
wrapping the given payload. -/
def derSequence (b : List Nat) : List Nat := setSequence b.length ++ b

/-- DER constructor used to state structural properties: an OCTET
STRING wrapping the given payload. -/
def derOctetString (b : List Nat) : List Nat := setOctetString b.length ++ b

/-- The DigestInfo structure of PKCS#1: a DER SEQUENCE of the hash
AlgorithmIdentifier followed by an OCTET STRING holding the digest. -/
def derDigestInfo (algoId digest : List Nat) : List Nat :=
  derSequence (algoId ++ derOctetString digest)

/-! ## PKCS#7 padding (pkcs7.c lines 3951-3988) -/

/-- Translation of wc_PKCS7_GetPadSize (pkcs7.c lines 3951-3962). -/
def wc_PKCS7_GetPadSize (inputSz blockSz : Nat) : Int :=
  if blockSz = 0 then BAD_FUNC_ARG
  else (blockSz : Int) - (inputSz % blockSz : Nat)

/-- Translation of wc_PKCS7_PadData (pkcs7.c lines 3965-3988): copy the
input and append padSz bytes, each holding (byte)padSz.  The byte cast
of the C source is the modulo 256 below. -/
def wc_PKCS7_PadData (input : List Nat) (outSz blockSz : Nat) : Except Int (List Nat) :=
  if input.length = 0 ∨ outSz = 0 then .error BAD_FUNC_ARG
  else
    let p := wc_PKCS7_GetPadSize input.length blockSz
    if p < 0 then .error BAD_FUNC_ARG
    else
      let padSz := p.toNat
      if outSz < input.length + padSz then .error BAD_FUNC_ARG
      else .ok (input ++ List.replicate padSz (padSz % 256))

/-- The positional pad strip performed by the decoders (pkcs7.c lines
5292-5295 and 5690-5693): the pad length is the last decrypted byte,
taken without validation, and the output is the first
contentSz - padLen bytes. -/
def pkcs7StripPadLen (c : List Nat) : Int :=
  (c.length : Int) - (c.getD (c.length - 1) 0 : Nat)

/-- The bytes copied out by the positional pad strip. -/
def pkcs7StripPad (c : List Nat) : List Nat :=
  c.take (pkcs7StripPadLen c).toNat

/-! ## SignedData digest construction (pkcs7.c lines 1022-1193) -/

/-- The esd contentAttribsDigest assignment of wc_PKCS7_BuildDigestInfo
(pkcs7.c lines 1053-1080): with signed attributes present the digest is
the hash of the universal SET header followed by the flattened
attribute bytes; without attributes it is the raw content digest
(contentDigest without its tag and length). -/
def pkcs7_contentAttribsDigest (H : List Nat → List Nat) (signedAttribsCount : Nat)
    (flatSignedAttribs contentDigestTail : List Nat) : List Nat :=
  if signedAttribsCount ≠ 0 then
    H (setSet flatSignedAttribs.length ++ flatSignedAttribs)
  else contentDigestTail

/-- Translation of wc_PKCS7_BuildDigestInfo (pkcs7.c lines 1032-1105).
The hash is the abstract parameter H; algoId stands for the SetAlgoID
output for the session hash OID. -/
def wc_PKCS7_BuildDigestInfo (H : List Nat → List Nat) (signedAttribsCount : Nat)
    (flatSignedAttribs contentDigestTail algoId : List Nat)
    (hashSz digestInfoSz : Nat) : Except Int (List Nat) :=
  let cad := pkcs7_contentAttribsDigest H signedAttribsCount flatSignedAttribs contentDigestTail
  let digestStr := setOctetString hashSz
  let digestInfoSeq := setSequence (algoId.length + digestStr.length + hashSz)
  if digestInfoSz < digestInfoSeq.length + algoId.length + digestStr.length + hashSz then
    .error BUFFER_E
  else
    .ok (digestInfoSeq ++ algoId ++ digestStr ++ cad.take hashSz)

/-- Translation of wc_PKCS7_SignedDataBuildSignature (pkcs7.c lines
1116-1193): RSA signs the DigestInfo, ECDSA signs the raw
content-and-attributes digest.  The signing primitives are abstract
parameters returning the signature bytes. -/
def wc_PKCS7_SignedDataBuildSignature (publicKeyOID : Nat) (H : List Nat → List Nat)
    (signedAttribsCount : Nat) (flatSignedAttribs contentDigestTail algoId : List Nat)
    (hashSz : Nat) (rsaSign ecdsaSign : List Nat → Except Int (List Nat)) :
    Except Int (List Nat) :=
  match wc_PKCS7_BuildDigestInfo H signedAttribsCount flatSignedAttribs
      contentDigestTail algoId hashSz MAX_PKCS7_DIGEST_SZ with
  | .error e => .error e
  | .ok digestInfo =>
    if publicKeyOID = RSAk then rsaSign digestInfo
    else if publicKeyOID = ECDSAk then
      ecdsaSign ((pkcs7_contentAttribsDigest H signedAttribsCount flatSignedAttribs
        contentDigestTail).take hashSz)
    else .error BAD_FUNC_ARG

/-- The signed attribute bytes as written to the wire by
PKCS7_EncodeSigned (lines 1352-1355 and 1504-1508): an IMPLICIT [0]
header built with SetImplicit(ASN_SET, 0, sz) followed by the flattened
attributes. -/
def encodeSigned_wireSignedAttribs (flatSignedAttribs : List Nat) : List Nat :=
  setImplicit 0x11 0 flatSignedAttribs.length ++ flatSignedAttribs

/-- The decoder side extraction of the signed attribute bytes
(PKCS7_VerifySignedData lines 2662-2670): after the context [0] tag and
its length, the next length bytes are saved as the attribute block. -/
def parseWireSignedAttribs (m : List Nat) (i maxIdx : Nat) : Option (List Nat × Nat) :=
  match m[i]? with
  | some b =>
    if b = 0xA0 then
      match getLength m (i + 1) maxIdx with
      | some (len, j) => some ((m.drop j).take len, j + len)
      | none => none
    else none
  | none => none

/-- The attribute hash input rebuilt by wc_PKCS7_BuildSignedDataDigest
(pkcs7.c lines 1932-1940): a universal SET header, then the attribute
bytes from the wire. -/
def buildSignedDataDigest_attribHashInput (signedAttrib : List Nat) : List Nat :=
  setSet signedAttrib.length ++ signedAttrib

/-- Translation of wc_PKCS7_BuildSignedDataDigest (pkcs7.c lines
1859-1983).  Returns the pair (pkcs7Digest, plainDigest): the DER
DigestInfo over the attribute-or-content hash, and the hash alone. -/
def wc_PKCS7_BuildSignedDataDigest (H : List Nat → List Nat) (hashSz : Nat)
    (signedAttrib : List Nat) (signedAttribSz : Nat) (content : Option (List Nat))
    (hashBuf : Option (List Nat)) (algoId : List Nat) :
    Except Int (List Nat × List Nat) :=
  let hashBufPresent : Bool := match hashBuf with | some hb => hb.length > 0 | none => false
  let hashLenBad : Bool := match hashBuf with | some hb => hb.length ≠ hashSz | none => false
  if signedAttribSz > 0 ∧ signedAttrib = [] then .error BAD_FUNC_ARG
  else if signedAttribSz = 0 ∧ hashBufPresent ∧ hashLenBad then .error BAD_FUNC_ARG
  else if signedAttribSz = 0 ∧ ¬ hashBufPresent ∧ content = none then .error BAD_FUNC_ARG
  else
    let digest : List Nat :=
      if hashBufPresent ∧ signedAttribSz = 0 then hashBuf.getD []
      else if signedAttribSz > 0 then
        H (setSet signedAttribSz ++ signedAttrib)
      else H (content.getD [])
    let digestStr := setOctetString hashSz
    let digestInfoSeq := setSequence (algoId.length + digestStr.length + hashSz)
    let pkcs7Digest := digestInfoSeq ++ algoId ++ digestStr ++ digest.take hashSz
    .ok (pkcs7Digest, digest.take hashSz)

/-! ## Signature verification loops (pkcs7.c lines 1631-1842, 1996-2063) -/

/-- Environment for the RSA verification loop: the retained certificate
sizes and the abstract per-certificate primitive outcomes (certificate
parse, public key decode, and the decrypted signature block returned by
wc_RsaSSL_Verify with the public key of that certificate). -/
structure RsaVerifyEnv where
  certSz : Nat → Nat
  parseCertOk : Nat → Bool
  keyDecodeOk : Nat → Bool
  rsaSSLVerify : Nat → Except Int (List Nat)

/-- The loop body of wc_PKCS7_RsaVerify over the remaining certificate
indices.  A slot of size zero is skipped; parse or key decode failure
skips the candidate; a decrypted block equal to the candidate digest
ends the loop with the block length; otherwise the loop continues, and
SIG_VERIFY_E results when no candidate verified. -/
def rsaVerifyGo (env : RsaVerifyEnv) (hash : List Nat) : List Nat → Int
  | [] => SIG_VERIFY_E
  | i :: rest =>
    if env.certSz i = 0 then rsaVerifyGo env hash rest
    else if ¬ env.parseCertOk i then rsaVerifyGo env hash rest
    else if ¬ env.keyDecodeOk i then rsaVerifyGo env hash rest
    else match env.rsaSSLVerify i with
      | .error _ => rsaVerifyGo env hash rest
      | .ok blk => if blk = hash then (blk.length : Int) else rsaVerifyGo env hash rest

/-- Translation of wc_PKCS7_RsaVerify (pkcs7.c lines 1631-1732). -/
def wc_PKCS7_RsaVerify (env : RsaVerifyEnv) (hash : List Nat) : Int :=
  rsaVerifyGo env hash (List.range MAX_PKCS7_CERTS)

/-- Environment for the ECDSA verification loop.  The decode source is
the session publicKey buffer: wc_EccPublicKeyDecode is called on
pkcs7.publicKey with a cursor that persists across loop iterations, so
the decode outcome is a function of the cursor only. -/
structure EcdsaVerifyEnv where
  certSz : Nat → Nat
  parseCertOk : Nat → Bool
  eccKeyDecode : Nat → Option (Nat × Nat)
  eccVerifyOk : Nat → List Nat → Bool

/-- The loop body of wc_PKCS7_EcdsaVerify (pkcs7.c lines 1786-1830).
The candidate certificate is parsed but the verification key is decoded
from the session publicKey buffer at the persistent cursor idx; decode
failure skips the candidate, a verification success returns 0. -/
def ecdsaVerifyGo (env : EcdsaVerifyEnv) (hash : List Nat) : Nat → List Nat → Int
  | _, [] => SIG_VERIFY_E
  | idx, i :: rest =>
    if env.certSz i = 0 then ecdsaVerifyGo env hash idx rest
    else if ¬ env.parseCertOk i then ecdsaVerifyGo env hash idx rest
    else match env.eccKeyDecode idx with
      | none => ecdsaVerifyGo env hash idx rest
      | some (k, idx2) =>
        if env.eccVerifyOk k hash then 0 else ecdsaVerifyGo env hash idx2 rest

/-- Translation of wc_PKCS7_EcdsaVerify (pkcs7.c lines 1740-1842). -/
def wc_PKCS7_EcdsaVerify (env : EcdsaVerifyEnv) (hash : List Nat) : Int :=
  ecdsaVerifyGo env hash 0 (List.range MAX_PKCS7_CERTS)

/-- Modelled from the spec: section 4.5 step 4 writes that the loop
goes over the candidate certificates in decoder order and the first
candidate whose own extracted public key verifies the signature wins;
certKey gives the public key extracted from each candidate
certificate. -/
def wc_PKCS7_EcdsaVerify_specModel (certSz : Nat → Nat) (parseCertOk : Nat → Bool)
    (certKey : Nat → Nat) (eccVerifyOk : Nat → List Nat → Bool) (hash : List Nat) :
    Int :=
  go (List.range MAX_PKCS7_CERTS)
where
  go : List Nat → Int
  | [] => SIG_VERIFY_E
  | i :: rest =>
    if certSz i = 0 then go rest
    else if ¬ parseCertOk i then go rest
    else if eccVerifyOk (certKey i) hash then 0 else go rest

/-- Translation of wc_PKCS7_SignedDataVerifySignature (pkcs7.c lines
1996-2063): rebuild both candidate digests, then for RSA try the
DigestInfo form first and fall back to the plain digest, for ECDSA use
the plain digest only. -/
def wc_PKCS7_SignedDataVerifySignature (renv : RsaVerifyEnv) (eenv : EcdsaVerifyEnv)
    (publicKeyOID : Nat) (H : List Nat → List Nat) (hashSz : Nat)
    (signedAttrib : List Nat) (signedAttribSz : Nat) (content : Option (List Nat))
    (hashBuf : Option (List Nat)) (algoId : List Nat) : Int :=
  match wc_PKCS7_BuildSignedDataDigest H hashSz signedAttrib signedAttribSz
      content hashBuf algoId with
  | .error e => e
  | .ok (pkcs7Digest, plainDigest) =>
    if publicKeyOID = RSAk then
      let r := wc_PKCS7_RsaVerify renv pkcs7Digest
      if r < 0 then wc_PKCS7_RsaVerify renv plainDigest else r
    else if publicKeyOID = ECDSAk then
      wc_PKCS7_EcdsaVerify eenv plainDigest
    else BAD_FUNC_ARG

/-! ## EnvelopedData recipient walk (pkcs7.c lines 4297-5046) -/

/-- Structural view of a KeyTransRecipientInfo as destructured by
wc_PKCS7_DecodeKtri: the issuer name hash produced by GetNameHash, the
serial parse outcome, the key encryption algorithm OID and the
encryptedKey octets. -/
structure KtriInfo where
  version : Nat
  issuerHash : List Nat
  serialOk : Bool
  encOID : Nat
  encryptedKey : List Nat
deriving DecidableEq

/-- KeyAgreeRecipientIdentifier choice. -/
inductive KariId where
  | ski (id : List Nat)
  | ias (issuerHash : List Nat) (serial : Nat)
deriving DecidableEq

/-- Structural view of a KeyAgreeRecipientInfo as destructured by
wc_PKCS7_DecodeKari. -/
structure KariInfo where
  version : Nat
  originatorOk : Bool
  keyWrapOID : Nat
  id : KariId
  encryptedKey : List Nat
deriving DecidableEq

/-- One RecipientInfo of either shape. -/
inductive RecipInfo where
  | ktri (r : KtriInfo)
  | kari (r : KariInfo)
deriving DecidableEq

/-- Session state consulted by the recipient walk, with the
cryptographic primitives abstract. -/
structure RecipSession where
  issuerHash : List Nat
  privateKeyPresent : Bool
  rsaPrivDecrypt : List Nat → Except Int (List Nat)
  extSubjKeyId : List Nat
  kariIssuerHash : List Nat
  kariSerial : Nat
  kariGenerateKEK : KariInfo → Except Int (List Nat)
  kariUnwrap : List Nat → List Nat → Except Int (List Nat)

/-- Translation of wc_PKCS7_DecodeKtri (pkcs7.c lines 4298-4462).  The
issuer hash comparison sets recipFound; the encryptedKey octets are
copied into the scratch buffer only when recipFound is set (line 4384),
yet the RSA private decryption of the scratch buffer runs regardless,
so for a non matching recipient it operates on the stale buffer
contents and its error aborts the walk. -/
def wc_PKCS7_DecodeKtri (s : RecipSession) (r : KtriInfo) (recipFound : Bool)
    (buf : List Nat) : Except Int (Bool × List Nat × List Nat) :=
  let recipFound1 := if r.issuerHash = s.issuerHash then true else recipFound
  if ¬ r.serialOk then .error ASN_PARSE_E
  else if r.encOID ≠ RSAk then .error ALGO_ID_E
  else
    let buf1 := if recipFound1 then r.encryptedKey else buf
    if ¬ s.privateKeyPresent then .error BAD_FUNC_ARG
    else match s.rsaPrivDecrypt buf1 with
      | .error e => .error e
      | .ok key => .ok (recipFound1, buf1, key)

/-- Translation of wc_PKCS7_DecodeKari (pkcs7.c lines 4802-4964): parse
the originator key, check the key wrap algorithm, match the recipient
identifier (a SubjectKeyIdentifier match sets recipFound; an
IssuerAndSerialNumber whose serial differs from ours aborts with
PKCS7_RECIP_E), then derive the KEK and unwrap the CEK regardless of
the match outcome. -/
def wc_PKCS7_DecodeKari (s : RecipSession) (r : KariInfo) (recipFound : Bool) :
    Except Int (Bool × List Nat) :=
  if ¬ r.originatorOk then .error ASN_PARSE_E
  else if ¬ (r.keyWrapOID = AES128_WRAP ∨ r.keyWrapOID = AES192_WRAP ∨
      r.keyWrapOID = AES256_WRAP) then .error BAD_KEYWRAP_ALG_E
  else
    match (match r.id with
      | .ski id => Except.ok (if id = s.extSubjKeyId then true else recipFound)
      | .ias ih sn =>
        let f := if ih = s.kariIssuerHash then true else recipFound
        if sn ≠ s.kariSerial then Except.error PKCS7_RECIP_E else Except.ok f) with
    | .error e => .error e
    | .ok f2 =>
      match s.kariGenerateKEK r with
      | .error e => .error e
      | .ok kek =>
        match s.kariUnwrap kek r.encryptedKey with
        | .error e => .error e
        | .ok key => .ok (f2, key)

/-- Translation of wc_PKCS7_DecodeRecipientInfos (pkcs7.c lines
4968-5046): walk the RecipientInfo set while recipFound is unset,
dispatching on the two wire shapes and checking the version of each;
buf carries the ktri scratch buffer contents between iterations and key
the last decrypted key. -/
def wc_PKCS7_DecodeRecipientInfos (s : RecipSession) :
    List RecipInfo → Bool → List Nat → List Nat → Except Int (Bool × List Nat)
  | [], found, _, key => .ok (found, key)
  | ri :: rest, found, buf, key =>
    if found then .ok (found, key)
    else match ri with
      | .ktri r =>
        if r.version ≠ 0 then .error ASN_VERSION_E
        else match wc_PKCS7_DecodeKtri s r found buf with
          | .error e => .error e
          | .ok (f2, b2, k2) => wc_PKCS7_DecodeRecipientInfos s rest f2 b2 k2
      | .kari r =>
        if r.version ≠ 3 then .error ASN_VERSION_E
        else match wc_PKCS7_DecodeKari s r found with
          | .error e => .error e
          | .ok (f2, k2) => wc_PKCS7_DecodeRecipientInfos s rest f2 buf k2

/-- Modelled from the spec: section 4.7 step 2 and invariant 8.  The
walk stops at the first recipient that matches the configured session
and yields a CEK; recipients that do not match are skipped without any
cryptographic operation, and recipients after the match are skipped. -/
def decodeRecipientInfos_specModel (s : RecipSession) : List RecipInfo → Except Int (List Nat)
  | [] => .error PKCS7_RECIP_E
  | .ktri r :: rest =>
    if r.issuerHash = s.issuerHash then s.rsaPrivDecrypt r.encryptedKey
    else decodeRecipientInfos_specModel s rest
  | .kari r :: rest =>
    if (match r.id with
        | .ski id => decide (id = s.extSubjKeyId)
        | .ias ih sn => decide (ih = s.kariIssuerHash) && decide (sn = s.kariSerial)) then
      match s.kariGenerateKEK r with
      | .error e => .error e
      | .ok kek => s.kariUnwrap kek r.encryptedKey
    else decodeRecipientInfos_specModel s rest

/-! ## SignedData decoder walk (pkcs7.c lines 2253-2733)

Translation of PKCS7_VerifySignedData for the single buffer entry point
wc_PKCS7_VerifySignedData (no detached header and footer, no external
digest), split into the stages the source performs in order. -/

/-- Stage one of PKCS7_VerifySignedData (lines 2274-2351): outer
ContentInfo, content type, EXPLICIT [0], SignedData sequence, version
(must be 1) and the digest algorithm SET, which is skipped; its
emptiness is the degenerate flag.  Returns the index after the skipped
set and the flag.  The BER idiom branch is modelled as its reject arm
(the build without the BER converter). -/
def vsdParseToDigestAlgos (m : List Nat) : Except Int (Nat × Bool) :=
  if m.length = 0 then .error BAD_FUNC_ARG
  else match getSequence m 0 m.length with
  | none => .error ASN_PARSE_E
  | some (len0, i0) =>
    if len0 = 0 ∧ m.getD (i0 - 1) 0 = 0x80 then .error BER_INDEF_E
    else match wc_GetContentType m i0 m.length with
    | none => .error ASN_PARSE_E
    | some (outerContentType, i1) =>
      if outerContentType ≠ SIGNED_DATA then .error PKCS7_OID_E
      else if m[i1]? ≠ some 0xA0 then .error ASN_PARSE_E
      else match getLength m (i1 + 1) m.length with
      | none => .error ASN_PARSE_E
      | some (_, i2) =>
        match getSequence m i2 m.length with
        | none => .error ASN_PARSE_E
        | some (_, i3) =>
          match getMyVersion m i3 m.length with
          | none => .error ASN_PARSE_E
          | some (version, i4) =>
            if version ≠ 1 then .error ASN_VERSION_E
            else match getSet m i4 m.length with
            | none => .error ASN_PARSE_E
            | some (len, i5) => .ok (i5 + len, len = 0)

/-- The multipart OCTET STRING aggregation loop of
PKCS7_VerifySignedData (lines 2416-2433), iterated on fuel; consumes
primitive OCTET STRING segments until the declared content length is
exhausted and returns the index after them. -/
def vsdMultiPartGo (m : List Nat) (stop : Nat) : Nat → Nat → Except Int Nat
  | _, 0 => .error ASN_PARSE_E
  | localIdx, fuel + 1 =>
    if localIdx ≥ stop then .ok localIdx
    else if m[localIdx]? ≠ some 0x04 then .error ASN_PARSE_E
    else match getLength m (localIdx + 1) m.length with
      | none => .error ASN_PARSE_E
      | some (len, j) =>
        if len + j > stop then .error ASN_PARSE_E
        else vsdMultiPartGo m stop (j + len) fuel

/-- The encapsulated content section of PKCS7_VerifySignedData (lines
2370-2493) for the single buffer entry: EXPLICIT [0] wrapper, then
either a primitive OCTET STRING or a constructed OCTET STRING of
primitive segments.  Returns the index after the content; a parse
failure here is reported, the caller tolerates it in the degenerate
case. -/
def vsdContentSection (m : List Nat) (i : Nat) : Except Int Nat :=
  if m[i]? ≠ some 0xA0 then .error ASN_PARSE_E
  else match getLength m (i + 1) m.length with
  | none => .error ASN_PARSE_E
  | some (len, j) =>
    if len = 0 then .error ASN_PARSE_E
    else if m[j]? = some 0x24 then
      match getLength m (j + 1) m.length with
      | none => .error ASN_PARSE_E
      | some (contentLen, start) =>
        if m[start]? ≠ some 0x04 then .error ASN_PARSE_E
        else match getLength m (start + 1) m.length with
        | none => .error ASN_PARSE_E
        | some (len1, l1) =>
          if l1 - start + len1 = contentLen then
            if len1 > 0 then .ok (l1 + len1) else .ok l1
          else
            vsdMultiPartGo m (start + contentLen) start (contentLen + 1)
    else
      if m[j]? ≠ some 0x04 then .error ASN_PARSE_E
      else match getLength m (j + 1) m.length with
      | none => .error ASN_PARSE_E
      | some (len2, k) =>
        if len2 > 0 then .ok (k + len2) else .ok k

/-- The loop over additional retained certificates
(PKCS7_VerifySignedData lines 2553-2564): walks up to three further
SEQUENCE elements recording them, stopping at the buffer end.  The tag
read is pkiMsg2[certIdx++], so a byte that is not a SEQUENCE tag is
still consumed before the next iteration. -/
def vsdMoreCertsGo (m : List Nat) : Nat → List Nat → Except Int Unit
  | _, [] => .ok ()
  | certIdx, _ :: rest =>
    if certIdx + 1 < m.length then
      if m[certIdx]? = some 0x30 then
        match getLength m (certIdx + 1) m.length with
        | none => .error ASN_PARSE_E
        | some (sz, h) => vsdMoreCertsGo m (h + sz) rest
      else vsdMoreCertsGo m (certIdx + 1) rest
    else .ok ()

/-- The content, certificate, content type and CRL sections of
PKCS7_VerifySignedData (lines 2370-2586).  Returns the index of the
signerInfos SET and whether a nonempty certificate set was loaded; the
latter rebinds the session through wc_PKCS7_InitWithCert, which resets
the PKCS7 structure including the noDegenerate flag. -/
def vsdParseContentCerts (m : List Nat) (idx : Nat) (degenerate : Bool) :
    Except Int (Nat × Bool) :=
  match getSequence m idx m.length with
  | none => .error ASN_PARSE_E
  | some (_, i1) =>
    match getASNObjectId m i1 m.length with
    | none => .error ASN_PARSE_E
    | some (lenOid, i2) =>
      let contentTypeSz := lenOid + (i2 - i1)
      let i3 := i2 + lenOid
      let afterContent : Except Int Nat :=
        match vsdContentSection m i3 with
        | .error e => if ¬ degenerate then .error e else .ok i3
        | .ok i4 => .ok i4
      match afterContent with
      | .error e => .error e
      | .ok i4 =>
        let certStep : Except Int (Nat × Bool) :=
          if m.getD i4 0 = 0xA0 then
            match getLength m (i4 + 1) m.length with
            | none => .error ASN_PARSE_E
            | some (len, i5) =>
              if len > 0 then
                let firstCert : Except Int Nat :=
                  if m[i5]? = some 0x30 then
                    match getLength m (i5 + 1) m.length with
                    | none => .error ASN_PARSE_E
                    | some (csz, h) => .ok (csz + (h - i5))
                  else .ok 0
                match firstCert with
                | .error e => .error e
                | .ok certSz0 =>
                  match vsdMoreCertsGo m (i5 + certSz0) [1, 2, 3] with
                  | .error e => .error e
                  | .ok _ => .ok (i5 + len, true)
              else .ok (i5 + len, false)
          else .ok (i4, false)
        match certStep with
        | .error e => .error e
        | .ok (i6, certsLoaded) =>
          if contentTypeSz > MAX_OID_SZ then .error ASN_PARSE_E
          else
            if m.getD i6 0 = 0xA1 then
              match getLength m (i6 + 1) m.length with
              | none => .error ASN_PARSE_E
              | some (len, i7) => .ok (i7 + len, certsLoaded)
            else .ok (i6, certsLoaded)

/-- Translation of PKCS7_VerifySignedData (pkcs7.c lines 2253-2717) for
the single buffer entry point.  verifySigner abstracts the SignerInfo
parse and signature verification branch (lines 2601-2714), invoked with
the index of the first SignerInfo; the degenerate policy decisions are
the checks at lines 2349, 2593 and 2596. -/
def PKCS7_VerifySignedData (verifySigner : Nat → Except Int Unit) (noDegenerate : Bool)
    (m : List Nat) : Except Int Int :=
  match vsdParseToDigestAlgos m with
  | .error e => .error e
  | .ok (idx, degenerate) =>
    if noDegenerate ∧ degenerate then .error PKCS7_NO_SIGNER_E
    else match vsdParseContentCerts m idx degenerate with
    | .error e => .error e
    | .ok (idx2, certsLoaded) =>
      let noDegenerate2 := if certsLoaded then false else noDegenerate
      match getSet m idx2 m.length with
      | none => .error ASN_PARSE_E
      | some (len, idx3) =>
        if len = 0 ∧ noDegenerate2 then .error PKCS7_NO_SIGNER_E
        else if ¬ degenerate ∧ len = 0 then .error PKCS7_NO_SIGNER_E
        else if len > 0 ∧ ¬ degenerate then
          match verifySigner idx3 with
          | .error e => .error e
          | .ok _ => .ok 0
        else .ok 0

/-! ## EncryptedData encoder and decoder (pkcs7.c lines 5312-5722) -/

/-- Translation of EncodeAttributes and FlattenAttributes (pkcs7.c
lines 684-729) for one attribute: SEQUENCE of the OID bytes and a SET
holding the value bytes. -/
def encodeAttrib (oid value : List Nat) : List Nat :=
  setSequence (value.length + (setSet value.length).length + oid.length) ++
    oid ++ setSet value.length ++ value

/-- The flattened outbound attribute block. -/
def flattenAttribs (attribs : List (List Nat × List Nat)) : List Nat :=
  (attribs.map fun a => encodeAttrib a.1 a.2).flatten

/-- Arguments of wc_PKCS7_EncodeEncryptedData, with the block cipher
and the generated IV abstract. -/
structure EncryptedDataIn where
  content : List Nat
  encryptOID : Nat
  encryptionKey : List Nat
  contentOID : Nat
  unprotectedAttribs : List (List Nat × List Nat)
  iv : List Nat
  encFn : List Nat → List Nat

/-- Translation of wc_PKCS7_EncodeEncryptedData (pkcs7.c lines
5312-5551): version 2 with unprotected attributes present, otherwise 0;
PKCS#7 padding, CBC encryption through the abstract primitive, and the
DER assembly in source order. -/
def wc_PKCS7_EncodeEncryptedData (a : EncryptedDataIn) (outputSz : Nat) :
    Except Int (List Nat) :=
  if a.content.length = 0 ∨ a.encryptOID = 0 ∨ a.encryptionKey.length = 0 then
    .error BAD_FUNC_ARG
  else if outputSz = 0 then .error BAD_FUNC_ARG
  else
    let outerContentType := wc_SetContentType ENCRYPTED_DATA
    let ver := if a.unprotectedAttribs.length > 0 then setMyVersion 2 else setMyVersion 0
    let contentType := wc_SetContentType a.contentOID
    let bs := wc_PKCS7_GetOIDBlockSize a.encryptOID
    if bs < 0 then .error bs
    else
      let blockSz := bs.toNat
      match wc_PKCS7_PadData a.content (a.content.length + blockSz) blockSz with
      | .error e => .error e
      | .ok plain =>
        let encryptedOutSz := plain.length
        let ivOctetString := setOctetString blockSz
        let contentEncAlgo := setAlgoIDBlk a.encryptOID (ivOctetString.length + blockSz)
        if blkOidBytesOf a.encryptOID = [] then .error BAD_FUNC_ARG
        else
          let encryptedContent := (a.encFn plain).take encryptedOutSz
          let encContentOctet := setImplicit 0x04 0 encryptedOutSz
          let encContentSeq := setSequence (contentType.length + contentEncAlgo.length +
            ivOctetString.length + blockSz + encContentOctet.length + encryptedOutSz)
          let flatAttribs := flattenAttribs a.unprotectedAttribs
          let attribsSz := if a.unprotectedAttribs.length ≠ 0 then flatAttribs.length else 0
          let attribSet := if a.unprotectedAttribs.length ≠ 0 then
              setImplicit 0x11 1 attribsSz else []
          let totalSz0 := ver.length + encContentSeq.length + contentType.length +
            contentEncAlgo.length + ivOctetString.length + blockSz +
            encContentOctet.length + encryptedOutSz + attribsSz + attribSet.length
          let encDataSeq := setSequence totalSz0
          let totalSz1 := totalSz0 + encDataSeq.length
          let outerContent := setExplicit 0 totalSz1
          let totalSz2 := totalSz1 + outerContentType.length + outerContent.length
          let contentInfoSeq := setSequence totalSz2
          let totalSz3 := totalSz2 + contentInfoSeq.length
          if totalSz3 > outputSz then .error BUFFER_E
          else
            .ok (contentInfoSeq ++ outerContentType ++ outerContent ++ encDataSeq ++
              ver ++ encContentSeq ++ contentType ++ contentEncAlgo ++ ivOctetString ++
              (a.iv.take blockSz) ++ encContentOctet ++ encryptedContent ++
              (if a.unprotectedAttribs.length ≠ 0 then attribSet ++ flatAttribs else []))

/-- Translation of wc_PKCS7_ParseAttribs (pkcs7.c lines 2148-2224) on
the attribute region: each attribute is a SEQUENCE holding an OID and a
SET with the value; returns the number of attributes parsed. -/
def wc_PKCS7_ParseAttribs (inb : List Nat) : Except Int Nat :=
  go (inb.length + 1) 0 0
where
  go : Nat → Nat → Nat → Except Int Nat
  | 0, _, found => .ok found
  | fuel + 1, idx, found =>
    if idx ≥ inb.length then .ok found
    else match getSequence inb idx inb.length with
      | none => .error ASN_PARSE_E
      | some (_, j) =>
        match getObjectId inb j inb.length with
        | none => .error ASN_PARSE_E
        | some (_, k) =>
          match getSet inb k inb.length with
          | none => .error ASN_PARSE_E
          | some (len, l) =>
            if inb.length - l < len then .error ASN_PARSE_E
            else go fuel (l + len) (found + 1)

/-- Translation of wc_PKCS7_DecodeUnprotectedAttributes (pkcs7.c lines
5556-5583): an IMPLICIT [1] SET of attributes handed to the attribute
parser. -/
def wc_PKCS7_DecodeUnprotectedAttributes (m : List Nat) (i : Nat) : Except Int Nat :=
  if m[i]? ≠ some 0xA1 then .error ASN_PARSE_E
  else match getLength m (i + 1) m.length with
  | none => .error ASN_PARSE_E
  | some (attribLen, j) => wc_PKCS7_ParseAttribs ((m.drop j).take attribLen)

/-- Header stage of wc_PKCS7_DecodeEncryptedData (lines 5610-5634):
outer ContentInfo, type encryptedData, EXPLICIT [0], EncryptedData
sequence and the version, which is validated only later. -/
def dedParseHeader (m : List Nat) : Except Int (Nat × Nat) :=
  match getSequence m 0 m.length with
  | none => .error ASN_PARSE_E
  | some (_, i0) =>
    match wc_GetContentType m i0 m.length with
    | none => .error ASN_PARSE_E
    | some (ct, i1) =>
      if ct ≠ ENCRYPTED_DATA then .error PKCS7_OID_E
      else if m[i1]? ≠ some 0xA0 then .error ASN_PARSE_E
      else match getLength m (i1 + 1) m.length with
      | none => .error ASN_PARSE_E
      | some (_, i2) =>
        match getSequence m i2 m.length with
        | none => .error ASN_PARSE_E
        | some (_, i3) =>
          match getMyVersion m i3 m.length with
          | none => .error ASN_PARSE_E
          | some (version, i4) => .ok (version, i4)

/-- EncryptedContentInfo stage of wc_PKCS7_DecodeEncryptedData (lines
5636-5678): inner sequence, content type, block cipher algorithm id, IV
of exactly the block size, then the IMPLICIT [0] primitive encrypted
content.  Returns the encrypted content octets and the index after
them. -/
def dedParseEncContent (m : List Nat) (i : Nat) : Except Int (List Nat × Nat) :=
  match getSequence m i m.length with
  | none => .error ASN_PARSE_E
  | some (_, i1) =>
    match wc_GetContentType m i1 m.length with
    | none => .error ASN_PARSE_E
    | some (_, i2) =>
      match getAlgoId m i2 m.length with
      | none => .error ASN_PARSE_E
      | some (encOID, i3) =>
        let ebs := wc_PKCS7_GetOIDBlockSize encOID
        if ebs < 0 then .error ebs
        else if m[i3]? ≠ some 0x04 then .error ASN_PARSE_E
        else match getLength m (i3 + 1) m.length with
        | none => .error ASN_PARSE_E
        | some (ivLen, i4) =>
          if (ivLen : Int) ≠ ebs then .error ASN_PARSE_E
          else
            let i5 := i4 + ivLen
            if m[i5]? ≠ some 0x80 then .error ASN_PARSE_E
            else match getLength m (i5 + 1) m.length with
            | none => .error ASN_PARSE_E
            | some (encSz, i6) =>
              if encSz = 0 then .error ASN_PARSE_E
              else .ok ((m.drop i6).take encSz, i6 + encSz)

/-- Translation of wc_PKCS7_DecodeEncryptedData (pkcs7.c lines
5587-5722) with the block cipher abstract.  The result carries the
returned length encryptedContentSz - padLen as a signed integer
together with the copied bytes; the length is computed from the last
decrypted byte with no range validation, and the output capacity is
never consulted after the initial nonzero check. -/
def wc_PKCS7_DecodeEncryptedData (decFn : List Nat → Except Int (List Nat))
    (encryptionKey : List Nat) (m : List Nat) (outputSz : Nat) :
    Except Int (Int × List Nat) :=
  if encryptionKey.length = 0 then .error BAD_FUNC_ARG
  else if m.length = 0 ∨ outputSz = 0 then .error BAD_FUNC_ARG
  else match dedParseHeader m with
  | .error e => .error e
  | .ok (version, i0) =>
    match dedParseEncContent m i0 with
    | .error e => .error e
    | .ok (ec, i1) =>
      match decFn ec with
      | .error e => .error e
      | .ok dec =>
        let padLen := dec.getD (ec.length - 1) 0
        let copyLen : Int := (ec.length : Int) - padLen
        let copied := dec.take copyLen.toNat
        let attribsPresent := i1 < m.length
        let attribStep : Except Int Unit :=
          if attribsPresent then
            match wc_PKCS7_DecodeUnprotectedAttributes m i1 with
            | .error _ => .error ASN_PARSE_E
            | .ok _ => .ok ()
          else .ok ()
        match attribStep with
        | .error e => .error e
        | .ok _ =>
          if (¬ attribsPresent ∧ version ≠ 0) ∨ (attribsPresent ∧ version ≠ 2) then
            .error ASN_VERSION_E
          else .ok (copyLen, copied)

/-! ## EnvelopedData decoder (pkcs7.c lines 5050-5306) -/

/-- Translation of wc_PKCS7_DecodeEnvelopedData (pkcs7.c lines
5050-5306).  recipWalk abstracts the RecipientInfos SET walk of lines
5140-5168 (modelled structurally above), returning the decrypted CEK
and the index after the walk; decFn abstracts the content decryption
primitive.  The pad strip at lines 5292-5295 takes the last decrypted
byte with no range validation. -/
def wc_PKCS7_DecodeEnvelopedData (publicKeyOID : Nat) (singleCertPresent : Bool)
    (recipWalk : Nat → Except Int (List Nat × Nat))
    (decFn : List Nat → List Nat → Except Int (List Nat))
    (m : List Nat) (outputSz : Nat) : Except Int (Int × List Nat) :=
  if ¬ singleCertPresent then .error BAD_FUNC_ARG
  else if m.length = 0 ∨ outputSz = 0 then .error BAD_FUNC_ARG
  else match getSequence m 0 m.length with
  | none => .error ASN_PARSE_E
  | some (len0, i0) =>
    if len0 = 0 ∧ m.getD (i0 - 1) 0 = 0x80 then .error BER_INDEF_E
    else match wc_GetContentType m i0 m.length with
    | none => .error ASN_PARSE_E
    | some (ct, i1) =>
      if ct ≠ ENVELOPED_DATA then .error PKCS7_OID_E
      else if m[i1]? ≠ some 0xA0 then .error ASN_PARSE_E
      else match getLength m (i1 + 1) m.length with
      | none => .error ASN_PARSE_E
      | some (_, i2) =>
        match getSequence m i2 m.length with
        | none => .error ASN_PARSE_E
        | some (_, i3) =>
          match getMyVersion m i3 m.length with
          | none => .error ASN_PARSE_E
          | some (version, i4) =>
            if (publicKeyOID = RSAk ∧ version ≠ 0) ∨
               (publicKeyOID = ECDSAk ∧ version ≠ 2) then .error ASN_VERSION_E
            else match getSet m i4 m.length with
            | none => .error ASN_PARSE_E
            | some (_, i5) =>
              match recipWalk i5 with
              | .error e => .error e
              | .ok (cek, i6) =>
                match getSequence m i6 m.length with
                | none => .error ASN_PARSE_E
                | some (_, i7) =>
                  match wc_GetContentType m i7 m.length with
                  | none => .error ASN_PARSE_E
                  | some (_, i8) =>
                    match getAlgoId m i8 m.length with
                    | none => .error ASN_PARSE_E
                    | some (encOID, i9) =>
                      let bks := wc_PKCS7_GetOIDKeySize encOID
                      if bks < 0 then .error bks
                      else
                        let ebs := wc_PKCS7_GetOIDBlockSize encOID
                        if ebs < 0 then .error ebs
                        else if m[i9]? ≠ some 0x04 then .error ASN_PARSE_E
                        else match getLength m (i9 + 1) m.length with
                        | none => .error ASN_PARSE_E
                        | some (ivLen, i10) =>
                          if (ivLen : Int) ≠ ebs then .error ASN_PARSE_E
                          else
                            let i11 := i10 + ivLen
                            let explicitOctet := m.getD i11 0 = 0xA0
                            if m.getD i11 0 ≠ 0x80 ∧ m.getD i11 0 ≠ 0xA0 then
                              .error ASN_PARSE_E
                            else match getLength m (i11 + 1) m.length with
                            | none => .error ASN_PARSE_E
                            | some (encSz0, i12) =>
                              if encSz0 = 0 then .error ASN_PARSE_E
                              else
                                let inner : Except Int (Nat × Nat) :=
                                  if explicitOctet then
                                    if m[i12]? ≠ some 0x04 then .error ASN_PARSE_E
                                    else match getLength m (i12 + 1) m.length with
                                    | none => .error ASN_PARSE_E
                                    | some (encSz1, i13) =>
                                      if encSz1 = 0 then .error ASN_PARSE_E
                                      else .ok (encSz1, i13)
                                  else .ok (encSz0, i12)
                                match inner with
                                | .error e => .error e
                                | .ok (encSz, i14) =>
                                  let ec := (m.drop i14).take encSz
                                  match decFn cek ec with
                                  | .error e => .error e
                                  | .ok dec =>
                                    let padLen := dec.getD (ec.length - 1) 0
                                    let copyLen : Int := (ec.length : Int) - padLen
                                    .ok (copyLen, dec.take copyLen.toNat)

/-! ## SignedData encoder (pkcs7.c lines 925-1625) -/

/-- Translation of wc_PKCS7_SignedDataGetEncAlgoId (pkcs7.c lines
933-1019): resolve the signature algorithm id from the public key
algorithm and hash OID; an unsupported pair is BAD_FUNC_ARG. -/
def wc_PKCS7_SignedDataGetEncAlgoId (publicKeyOID hashOID : Nat) : Except Int Nat :=
  let algoId : Nat :=
    if publicKeyOID = RSAk then
      if hashOID = SHAh then CTC_SHAwRSA
      else if hashOID = SHA224h then CTC_SHA224wRSA
      else if hashOID = SHA256h then CTC_SHA256wRSA
      else if hashOID = SHA384h then CTC_SHA384wRSA
      else if hashOID = SHA512h then CTC_SHA512wRSA
      else 0
    else if publicKeyOID = ECDSAk then
      if hashOID = SHAh then CTC_SHAwECDSA
      else if hashOID = SHA224h then CTC_SHA224wECDSA
      else if hashOID = SHA256h then CTC_SHA256wECDSA
      else if hashOID = SHA384h then CTC_SHA384wECDSA
      else if hashOID = SHA512h then CTC_SHA512wECDSA
      else 0
    else 0
  if algoId = 0 then .error BAD_FUNC_ARG else .ok algoId

/-- Session arguments of PKCS7_EncodeSigned, with the hash and signing
primitives abstract.  content is the session content byte region, which
may be absent; contentSz is the declared content size (for the detached
form it describes data held by the caller). -/
structure EncodeSignedArgs where
  contentSz : Nat
  content : Option (List Nat)
  encryptOID : Nat
  hashOID : Nat
  rngSet : Bool
  contentOID : Nat
  customContentType : List Nat
  sidType : Nat
  issuerSn : List Nat
  issuer : List Nat
  issuerSubjKeyId : List Nat
  publicKeyOID : Nat
  signedAttribsCount : Nat
  flatSignedAttribs : List Nat
  certs : List (List Nat)
  signFn : List Nat → Except Int (List Nat)
  hFn : List Nat → List Nat

/-- Translation of PKCS7_EncodeSigned (pkcs7.c lines 1197-1528).  The
result is the pair of output buffers: the non detached form returns the
whole envelope and no footer, the detached form (output2Sz present)
returns the header without the content bytes and the footer.  The
content pointer is only dereferenced by the non detached content copy
at line 1454. -/
def PKCS7_EncodeSigned (a : EncodeSignedArgs) (hashBuf : Option (List Nat))
    (hashSz outputSz : Nat) (output2Sz : Option Nat) :
    Except Int (List Nat × Option (List Nat)) :=
  if a.contentSz = 0 ∨ a.encryptOID = 0 ∨ a.hashOID = 0 ∨ ¬ a.rngSet ∨
      outputSz = 0 ∨ hashSz = 0 ∨ hashBuf = none then .error BAD_FUNC_ARG
  else
    let contentType :=
      if a.customContentType.length = 0 then
        wc_SetContentType (if a.contentOID = 0 then DATA else a.contentOID)
      else a.customContentType
    let signedDataOid := wc_SetContentType SIGNED_DATA
    if wc_HashGetDigestSize_oid a.hashOID ≠ (hashSz : Int) then .error BUFFER_E
    else
      let hb := hashBuf.getD []
      let innerOctets := setOctetString a.contentSz
      let innerContSeq := setExplicit 0 (innerOctets.length + a.contentSz)
      let contentInfoSeq := setSequence (a.contentSz + innerOctets.length +
        contentType.length + innerContSeq.length)
      let sid : Except Int (List Nat × List Nat) :=
        if a.sidType = SID_ISSUER_AND_SERIAL_NUMBER then
          let issuerSn := setSerialNumber a.issuerSn
          let issuerName := setSequence a.issuer.length
          let issuerSnSeq := setSequence (issuerSn.length + issuerName.length +
            a.issuer.length)
          .ok (issuerSnSeq ++ issuerName ++ a.issuer ++ issuerSn, setMyVersion 1)
        else if a.sidType = SID_SUBJECT_KEY_IDENTIFIER then
          let issuerSKID := setOctetString KEYID_SIZE
          let issuerSKIDSeq := setExplicit 0 (issuerSKID.length + KEYID_SIZE)
          .ok (issuerSKIDSeq ++ issuerSKID ++ a.issuerSubjKeyId.take KEYID_SIZE,
            setMyVersion 3)
        else .error SKID_E
      match sid with
      | .error e => .error e
      | .ok (sidBytes, signerVersion) =>
        let signerDigAlgoId := setAlgoIDHash a.hashOID
        match wc_PKCS7_SignedDataGetEncAlgoId a.publicKeyOID a.hashOID with
        | .error e => .error e
        | .ok digEncAlgoIdTag =>
          let digEncAlgoId := setAlgoIDSig digEncAlgoIdTag
          let flat := if a.signedAttribsCount ≠ 0 then a.flatSignedAttribs else []
          let signedAttribSet := if a.signedAttribsCount ≠ 0 then
              setImplicit 0x11 0 flat.length else []
          match wc_PKCS7_SignedDataBuildSignature a.publicKeyOID a.hFn
              a.signedAttribsCount flat hb signerDigAlgoId hashSz a.signFn a.signFn with
          | .error e => .error e
          | .ok sig =>
            let signerDigest := setOctetString sig.length
            let signerInfoSz0 := signerVersion.length + sidBytes.length +
              signerDigAlgoId.length + digEncAlgoId.length + flat.length +
              signedAttribSet.length + signerDigest.length + sig.length
            let signerInfoSeq := setSequence signerInfoSz0
            let signerInfoSet := setSet (signerInfoSz0 + signerInfoSeq.length)
            let certSetSz := (a.certs.map List.length).sum
            let certsSet := setImplicit 0x11 0 certSetSz
            let singleDigAlgoId := setAlgoIDHash a.hashOID
            let digAlgoIdSet := setSet singleDigAlgoId.length
            let version := setMyVersion 1
            let totalSz0 := version.length + singleDigAlgoId.length +
              digAlgoIdSet.length + contentInfoSeq.length + contentType.length +
              innerContSeq.length + innerOctets.length + a.contentSz
            let total2Sz := certsSet.length + certSetSz + signerInfoSz0 +
              signerInfoSeq.length + signerInfoSet.length
            let innerSeq := setSequence (totalSz0 + total2Sz)
            let totalSz1 := totalSz0 + innerSeq.length
            let outerContent := setExplicit 0 (totalSz1 + total2Sz)
            let totalSz2 := totalSz1 + outerContent.length + signedDataOid.length
            let outerSeq := setSequence (totalSz2 + total2Sz)
            let totalSz3 := totalSz2 + outerSeq.length
            let detachedCheck : Except Int Nat :=
              match output2Sz with
              | some n2 => if total2Sz > n2 then .error BUFFER_E
                  else .ok (totalSz3 - a.contentSz)
              | none => .ok totalSz3
            match detachedCheck with
            | .error e => .error e
            | .ok totalSz4 =>
              if totalSz4 > outputSz then .error BUFFER_E
              else
                let head := outerSeq ++ signedDataOid ++ outerContent ++ innerSeq ++
                  version ++ digAlgoIdSet ++ singleDigAlgoId ++ contentInfoSeq ++
                  contentType ++ innerContSeq ++ innerOctets
                let foot := certsSet ++ a.certs.flatten ++ signerInfoSet ++
                  signerInfoSeq ++ signerVersion ++ sidBytes ++ signerDigAlgoId ++
                  signedAttribSet ++ flat ++ digEncAlgoId ++ signerDigest ++ sig
                match output2Sz with
                | some _ => .ok (head, some foot)
                | none =>
                  match a.content with
                  | some c => .ok (head ++ c.take a.contentSz ++ foot, none)
                  | none => .error NULL_DEREF_E

/-- Translation of wc_PKCS7_EncodeSignedData_ex (pkcs7.c lines
1538-1569): the detached head and foot form with an externally supplied
content digest. -/
def wc_PKCS7_EncodeSignedData_ex (a : EncodeSignedArgs) (hashBuf : Option (List Nat))
    (hashSz outputHeadSz outputFootSz : Nat) :
    Except Int (List Nat × Option (List Nat)) :=
  PKCS7_EncodeSigned a hashBuf hashSz outputHeadSz (some outputFootSz)

/-- Translation of wc_PKCS7_EncodeSignedData (pkcs7.c lines 1572-1625):
hash the session content, then encode in the single buffer form. -/
def wc_PKCS7_EncodeSignedData (a : EncodeSignedArgs) (outputSz : Nat) :
    Except Int (List Nat) :=
  if a.contentSz = 0 ∨ a.content = none then .error BAD_FUNC_ARG
  else
    let d := wc_HashGetDigestSize_oid a.hashOID
    if d < 0 then .error d
    else
      match PKCS7_EncodeSigned a (some (a.hFn (a.content.getD []))) d.toNat
          outputSz none with
      | .error e => .error e
      | .ok (out, _) => .ok out

/-! ## Concrete instances used by the counterexample and witness
theorems -/

/-- Concrete ECDSA verification environment: two retained certificates,
the session publicKey buffer decodes (at cursor zero) to key 0, and
only key 1, the key of the second certificate, verifies the
signature. -/
def c4_env : EcdsaVerifyEnv where
  certSz := fun i => if i < 2 then 100 else 0
  parseCertOk := fun _ => true
  eccKeyDecode := fun idx => if idx = 0 then some (0, 1) else none
  eccVerifyOk := fun k _ => decide (k = 1)

/-- Certificate slot to extracted public key map for the concrete
scenario: certificate i carries key i. -/
def c4_certKey : Nat → Nat := fun i => i

/-- The candidate digest of the concrete ECDSA scenario. -/
def c4_hash : List Nat := [1]

/-- Concrete recipient session: the issuer hash is twenty ones; the
RSA private decrypt succeeds only on the encrypted key of the matching
recipient and fails with RSA_PAD_E on anything else, as PKCS#1
unpadding of stale bytes does. -/
def c5_sess : RecipSession where
  issuerHash := List.replicate KEYID_SIZE 1
  privateKeyPresent := true
  rsaPrivDecrypt := fun l => if l = [9, 9] then .ok [7, 7, 7] else .error RSA_PAD_E
  extSubjKeyId := []
  kariIssuerHash := []
  kariSerial := 0
  kariGenerateKEK := fun _ => .error MEMORY_E
  kariUnwrap := fun _ _ => .error MEMORY_E

/-- First concrete recipient: a KTRI whose issuer hash does not match
the session. -/
def c5_r1 : KtriInfo where
  version := 0
  issuerHash := List.replicate KEYID_SIZE 2
  serialOk := true
  encOID := RSAk
  encryptedKey := [5, 5]

/-- Second concrete recipient: the KTRI that matches the session. -/
def c5_r2 : KtriInfo where
  version := 0
  issuerHash := List.replicate KEYID_SIZE 1
  serialOk := true
  encOID := RSAk
  encryptedKey := [9, 9]

/-- Initial contents of the ktri scratch buffer (stale bytes never
overwritten for a non matching recipient). -/
def c5_stale : List Nat := [0]

/-- A minimal degenerate SignedData: ContentInfo holding a SignedData
with version 1, an empty digestAlgorithms SET, an encapContentInfo of
type data with the content omitted, and an empty signerInfos SET. -/
def c6_msg : List Nat :=
  [0x30, 0x23, 0x06, 0x09, 0x2A, 0x86, 0x48, 0x86, 0xF7, 0x0D, 0x01, 0x07, 0x02,
   0xA0, 0x16, 0x30, 0x14, 0x02, 0x01, 0x01, 0x31, 0x00,
   0x30, 0x0B, 0x06, 0x09, 0x2A, 0x86, 0x48, 0x86, 0xF7, 0x0D, 0x01, 0x07, 0x01,
   0x31, 0x00]

/-- Concrete EncryptedData encode arguments without unprotected
attributes; the block cipher is the identity so the decode witness can
invert it. -/
def c8_argsA : EncryptedDataIn where
  content := [0x41]
  encryptOID := AES128CBCb
  encryptionKey := List.replicate 16 0
  contentOID := DATA
  unprotectedAttribs := []
  iv := List.replicate 16 9
  encFn := fun x => x

/-- One concrete unprotected attribute: OID value 1.2 and an OCTET
STRING value, both with their ASN.1 tag and length. -/
def c8_attrib : List Nat × List Nat := ([0x06, 0x01, 0x2A], [0x04, 0x01, 0xFF])

/-- Concrete EncryptedData encode arguments with one unprotected
attribute. -/
def c8_argsB : EncryptedDataIn where
  content := [0x41]
  encryptOID := AES128CBCb
  encryptionKey := List.replicate 16 0
  contentOID := DATA
  unprotectedAttribs := [c8_attrib]
  iv := List.replicate 16 9
  encFn := fun x => x

/-- The encoded EncryptedData message without attributes. -/
def c8_msgA : List Nat :=
  match wc_PKCS7_EncodeEncryptedData c8_argsA 200 with
  | .ok o => o
  | .error _ => []

/-- The encoded EncryptedData message with one attribute. -/
def c8_msgB : List Nat :=
  match wc_PKCS7_EncodeEncryptedData c8_argsB 200 with
  | .ok o => o
  | .error _ => []

/-- Concrete SignedData encode arguments with an absent content region,
for the detached encode with an externally supplied digest. -/
def c9_args : EncodeSignedArgs where
  contentSz := 3
  content := none
  encryptOID := RSAk
  hashOID := SHA256h
  rngSet := true
  contentOID := 0
  customContentType := []
  sidType := SID_ISSUER_AND_SERIAL_NUMBER
  issuerSn := [1]
  issuer := []
  issuerSubjKeyId := []
  publicKeyOID := RSAk
  signedAttribsCount := 0
  flatSignedAttribs := []
  certs := []
  signFn := fun _ => .ok [1, 2, 3, 4]
  hFn := fun _ => List.replicate 32 0

/-- A concrete EnvelopedData message: version 0, an empty recipient set
(the walk outcome is abstracted), AES-128-CBC with a sixteen byte IV,
and sixteen bytes of encrypted content. -/
def c10_env_msg : List Nat :=
  [0x30, 0x52, 0x06, 0x09, 0x2A, 0x86, 0x48, 0x86, 0xF7, 0x0D, 0x01, 0x07, 0x03,
   0xA0, 0x45, 0x30, 0x43, 0x02, 0x01, 0x00, 0x31, 0x00,
   0x30, 0x3C, 0x06, 0x09, 0x2A, 0x86, 0x48, 0x86, 0xF7, 0x0D, 0x01, 0x07, 0x01,
   0x30, 0x1D, 0x06, 0x09, 0x60, 0x86, 0x48, 0x01, 0x65, 0x03, 0x04, 0x01, 0x02,
   0x04, 0x10, 0, 0, 0, 0, 0, 0, 0, 0, 0, 0, 0, 0, 0, 0, 0, 0,
   0x80, 0x10, 7, 7, 7, 7, 7, 7, 7, 7, 7, 7, 7, 7, 7, 7, 7, 7]

/-- Recipient walk outcome for the concrete EnvelopedData message. -/
def c10_recipWalk : Nat → Except Int (List Nat × Nat) := fun i => .ok ([1, 2], i)

/-- Decryption whose last output byte, 200, exceeds the sixteen byte
encrypted content size. -/
def c10_decFnNeg : List Nat → List Nat → Except Int (List Nat) :=
  fun _ c => .ok (c.take 15 ++ [200])

/-- Decryption whose last output byte is 1, so fifteen bytes are copied
out. -/
def c10_decFnOne : List Nat → Except Int (List Nat) :=
  fun c => .ok (c.take 15 ++ [1])

/-! ## Helper lemmas -/

/-- Parsing a DER length that was emitted by setLength, after a one
byte tag, recovers the length and the position after the length
bytes. -/
theorem getLength_emit (a n : Nat) (post : List Nat) (hn : n < 4294967296)
    (hp : n ≤ post.length) :
    getLength (a :: (setLength n ++ post)) 1 (1 + (setLength n).length + post.length)
      = some (n, 1 + (setLength n).length) := by
  unfold setLength
  by_cases h1 : n < 128
  · simp only [if_pos h1, List.cons_append, List.singleton_append]
    simp only [getLength, List.getElem?_cons_succ, List.getElem?_cons_zero,
      List.length_cons, List.length_singleton]
    rw [if_pos h1, if_pos (by omega)]
    simp
  · by_cases h2 : n < 256
    · simp only [if_neg h1, if_pos h2, List.cons_append, List.singleton_append]
      simp only [getLength, List.getElem?_cons_succ, List.getElem?_cons_zero,
        List.length_cons, List.length_singleton, List.drop_succ_cons, List.drop_zero,
        List.take_succ_cons, List.take_zero, List.foldl_cons, List.foldl_nil,
        List.length_singleton]
      norm_num
      omega
    · by_cases h3 : n < 65536
      · simp only [if_neg h1, if_neg h2, if_pos h3, List.cons_append, List.singleton_append]
        simp only [getLength, List.getElem?_cons_succ, List.getElem?_cons_zero,
          List.length_cons, List.drop_succ_cons, List.drop_zero,
          List.take_succ_cons, List.take_zero, List.foldl_cons, List.foldl_nil,
          List.length_nil]
        norm_num
        omega
      · by_cases h4 : n < 16777216
        · simp only [if_neg h1, if_neg h2, if_neg h3, if_pos h4, List.cons_append,
            List.singleton_append]
          simp only [getLength, List.getElem?_cons_succ, List.getElem?_cons_zero,
            List.length_cons, List.drop_succ_cons, List.drop_zero,
            List.take_succ_cons, List.take_zero, List.foldl_cons, List.foldl_nil,
            List.length_nil]
          norm_num
          omega
        · simp only [if_neg h1, if_neg h2, if_neg h3, if_neg h4, List.cons_append,
            List.singleton_append]
          simp only [getLength, List.getElem?_cons_succ, List.getElem?_cons_zero,
            List.length_cons, List.drop_succ_cons, List.drop_zero,
            List.take_succ_cons, List.take_zero, List.foldl_cons, List.foldl_nil,
            List.length_nil]
          norm_num
          omega

/-- The last element of an appended replicate block read the way the
decoders read the pad byte. -/
theorem getD_append_replicate (l : List Nat) (p v : Nat) (hp : 1 ≤ p) :
    (l ++ List.replicate p v).getD (l.length + p - 1) 0 = v := by
  rw [List.getD_append_right _ _ _ _ (by omega)]
  have h : l.length + p - 1 - l.length = p - 1 := by omega
  rw [h, List.getD_eq_getElem _ _ (by simp; omega), List.getElem_replicate]

/-! ## Claim C7: the padding laws -/

/-- Claim C7, corrected to block sizes of at most 255 (so that the
byte cast of the pad value is lossless): the pad size is
blockSz - inSz mod blockSz and lies in [1, blockSz]; pad_data appends
exactly that many bytes, each equal to the pad length, returning the
padded bytes of length inSz + padSz; and the positional strip of the
decoders recovers the original bytes and length. -/
theorem claim_C7 (input : List Nat) (blockSz outSz : Nat)
    (h1 : 1 ≤ input.length) (h2 : 1 ≤ blockSz) (h255 : blockSz ≤ 255)
    (hout : input.length + blockSz ≤ outSz) :
    wc_PKCS7_GetPadSize input.length blockSz
        = (blockSz : Int) - (input.length % blockSz : Nat)
  ∧ 1 ≤ wc_PKCS7_GetPadSize input.length blockSz
  ∧ wc_PKCS7_GetPadSize input.length blockSz ≤ (blockSz : Int)
  ∧ wc_PKCS7_PadData input outSz blockSz
        = .ok (input ++ List.replicate (blockSz - input.length % blockSz)
            (blockSz - input.length % blockSz))
  ∧ (input ++ List.replicate (blockSz - input.length % blockSz)
        (blockSz - input.length % blockSz)).length
        = input.length + (blockSz - input.length % blockSz)
  ∧ pkcs7StripPadLen (input ++ List.replicate (blockSz - input.length % blockSz)
        (blockSz - input.length % blockSz)) = (input.length : Int)
  ∧ pkcs7StripPad (input ++ List.replicate (blockSz - input.length % blockSz)
        (blockSz - input.length % blockSz)) = input := by
  have hbz : blockSz ≠ 0 := by omega
  have hmod : input.length % blockSz < blockSz := Nat.mod_lt _ (by omega)
  set p := blockSz - input.length % blockSz with hpdef
  have hp1 : 1 ≤ p := by omega
  have hgps : wc_PKCS7_GetPadSize input.length blockSz
      = (blockSz : Int) - (input.length % blockSz : Nat) := by
    unfold wc_PKCS7_GetPadSize
    rw [if_neg hbz]
  have hlen : (input ++ List.replicate p p).length = input.length + p := by
    simp
  have hlast : (input ++ List.replicate p p).getD (input.length + p - 1) 0 = p :=
    getD_append_replicate input p p hp1
  refine ⟨hgps, by rw [hgps]; omega, by rw [hgps]; omega, ?_, hlen, ?_, ?_⟩
  · unfold wc_PKCS7_PadData
    rw [if_neg (by omega), hgps, if_neg (by omega)]
    have htn : ((blockSz : Int) - (input.length % blockSz : Nat)).toNat = p := by omega
    rw [htn, if_neg (by omega)]
    have hmodp : p % 256 = p := Nat.mod_eq_of_lt (by omega)
    rw [hmodp]
  · unfold pkcs7StripPadLen
    rw [hlen, hlast]
    omega
  · unfold pkcs7StripPad pkcs7StripPadLen
    rw [hlen, hlast]
    have : ((input.length + p : Nat) - (p : Int)).toNat = input.length := by omega
    rw [this]
    exact List.take_left input (List.replicate p p)

set_option maxRecDepth 4096 in
/-- The claim as frozen is false for block sizes above 255: with input
size 1 and block size 257 the pad size is 256, but the byte cast makes
every appended pad byte 0 rather than the pad length, and the
positional strip then returns length 257 instead of 1. -/
theorem claim_C7_counterexample :
    wc_PKCS7_GetPadSize 1 257 = 256
  ∧ wc_PKCS7_PadData [65] 300 257 = .ok (65 :: List.replicate 256 0)
  ∧ (65 :: List.replicate 256 0).getD 1 0 = 0
  ∧ pkcs7StripPadLen (65 :: List.replicate 256 0) = 257 :=
  ⟨rfl, rfl, rfl, rfl⟩

/-- Witness for claim C7 at a concrete input: two bytes padded to a
sixteen byte block. -/
theorem claim_C7_witness :
    wc_PKCS7_PadData [0, 0] 48 16 = .ok ([0, 0] ++ List.replicate 14 14)
  ∧ pkcs7StripPad ([0, 0] ++ List.replicate 14 14) = [0, 0] :=
  ⟨(claim_C7 [0, 0] 16 48 (by decide) (by decide) (by decide) (by decide)).2.2.2.1,
   (claim_C7 [0, 0] 16 48 (by decide) (by decide) (by decide) (by decide)).2.2.2.2.2.2⟩

/-! ## Claim C1: signed attribute canonicalization -/

/-- Claim C1: with signed attributes present, the digest that is signed
(and the digest the decoder reconstructs) is the hash of the attribute
bytes under a universal SET header, while the wire carries the same
bytes under the IMPLICIT [0] header: the two forms differ exactly in
the leading tag byte (0x31 against 0xA0), and parsing the wire bytes
recovers the attribute block the two hash inputs share. -/
theorem claim_C1 (H : List Nat → List Nat) (cnt : Nat) (fa cdt : List Nat)
    (hcnt : cnt ≠ 0) (hlen : fa.length < 4294967296) :
    pkcs7_contentAttribsDigest H cnt fa cdt
        = H (buildSignedDataDigest_attribHashInput fa)
  ∧ buildSignedDataDigest_attribHashInput fa = 0x31 :: (setLength fa.length ++ fa)
  ∧ encodeSigned_wireSignedAttribs fa = 0xA0 :: (setLength fa.length ++ fa)
  ∧ parseWireSignedAttribs (encodeSigned_wireSignedAttribs fa) 0
        (encodeSigned_wireSignedAttribs fa).length
      = some (fa, (encodeSigned_wireSignedAttribs fa).length) := by
  have hset : buildSignedDataDigest_attribHashInput fa
      = 0x31 :: (setLength fa.length ++ fa) := by
    simp [buildSignedDataDigest_attribHashInput, setSet]
  have hwire : encodeSigned_wireSignedAttribs fa
      = 0xA0 :: (setLength fa.length ++ fa) := by
    simp [encodeSigned_wireSignedAttribs, setImplicit]
  refine ⟨?_, hset, hwire, ?_⟩
  · simp [pkcs7_contentAttribsDigest, buildSignedDataDigest_attribHashInput, hcnt]
  · rw [hwire]
    have hlen2 : (0xA0 :: (setLength fa.length ++ fa)).length
        = 1 + (setLength fa.length).length + fa.length := by
      simp
      omega
    have hdrop : (0xA0 :: (setLength fa.length ++ fa)).drop
        (1 + (setLength fa.length).length) = fa := by
      rw [show 1 + (setLength fa.length).length = (setLength fa.length).length + 1
        from by omega]
      simp [List.drop_succ_cons, List.drop_left]
    simp only [parseWireSignedAttribs, List.getElem?_cons_zero, if_pos rfl, hlen2]
    rw [getLength_emit 0xA0 fa.length fa hlen le_rfl]
    simp only [hdrop, List.take_length]
    simp

/-- Witness for claim C1: a one byte attribute block round trips
through the wire form. -/
theorem claim_C1_witness :
    parseWireSignedAttribs (encodeSigned_wireSignedAttribs [0xAB]) 0
        (encodeSigned_wireSignedAttribs [0xAB]).length
      = some ([0xAB], (encodeSigned_wireSignedAttribs [0xAB]).length) :=
  (claim_C1 (fun _ => [0]) 1 [0xAB] [] (by decide) (by decide)).2.2.2

/-! ## Claim C2: RSA signs DigestInfo, ECDSA signs the raw digest -/

/-- Claim C2: the bytes handed to the RSA signing primitive are the DER
DigestInfo (SEQUENCE of the hash algorithm identifier and an OCTET
STRING with the digest to sign); the bytes handed to the ECDSA signing
primitive are the raw digest with no DigestInfo wrapping. -/
theorem claim_C2 (H : List Nat → List Nat) (cnt : Nat) (fa cdt algoId : List Nat)
    (hashSz : Nat) (rsaSign ecdsaSign : List Nat → Except Int (List Nat))
    (hfit : (setSequence (algoId.length + (setOctetString hashSz).length + hashSz)).length
        + algoId.length + (setOctetString hashSz).length + hashSz ≤ MAX_PKCS7_DIGEST_SZ)
    (hlen : hashSz ≤ (pkcs7_contentAttribsDigest H cnt fa cdt).length) :
    wc_PKCS7_SignedDataBuildSignature RSAk H cnt fa cdt algoId hashSz rsaSign ecdsaSign
        = rsaSign (derDigestInfo algoId
            ((pkcs7_contentAttribsDigest H cnt fa cdt).take hashSz))
  ∧ wc_PKCS7_SignedDataBuildSignature ECDSAk H cnt fa cdt algoId hashSz rsaSign ecdsaSign
        = ecdsaSign ((pkcs7_contentAttribsDigest H cnt fa cdt).take hashSz) := by
  set cad := pkcs7_contentAttribsDigest H cnt fa cdt with hcad
  have hdlen : (cad.take hashSz).length = hashSz := by
    rw [List.length_take]
    omega
  have hbd : wc_PKCS7_BuildDigestInfo H cnt fa cdt algoId hashSz MAX_PKCS7_DIGEST_SZ
      = .ok (setSequence (algoId.length + (setOctetString hashSz).length + hashSz) ++
          algoId ++ setOctetString hashSz ++ cad.take hashSz) := by
    unfold wc_PKCS7_BuildDigestInfo
    rw [if_neg (by omega)]
  have hdi : setSequence (algoId.length + (setOctetString hashSz).length + hashSz) ++
      algoId ++ setOctetString hashSz ++ cad.take hashSz
      = derDigestInfo algoId (cad.take hashSz) := by
    unfold derDigestInfo derSequence derOctetString
    rw [hdlen]
    have hargs : (algoId ++ (setOctetString hashSz ++ cad.take hashSz)).length
        = algoId.length + (setOctetString hashSz).length + hashSz := by
      simp [hdlen]
      omega
    rw [hargs]
    simp [List.append_assoc]
  constructor
  · unfold wc_PKCS7_SignedDataBuildSignature
    rw [hbd]
    dsimp only
    rw [if_pos rfl, hdi]
  · unfold wc_PKCS7_SignedDataBuildSignature
    rw [hbd]
    dsimp only
    rw [if_neg (show ¬ (ECDSAk = RSAk) by decide), if_pos rfl]

/-- Witness for claim C2 at concrete inputs: SHA-256 sized digest,
echoing signing primitives. -/
theorem claim_C2_witness :
    wc_PKCS7_SignedDataBuildSignature RSAk (fun _ => List.replicate 32 7) 1 [1] []
        (setAlgoIDHash SHA256h) 32 (fun x => .ok x) (fun x => .ok x)
      = .ok (derDigestInfo (setAlgoIDHash SHA256h)
          ((pkcs7_contentAttribsDigest (fun _ => List.replicate 32 7) 1 [1] []).take 32))
  ∧ wc_PKCS7_SignedDataBuildSignature ECDSAk (fun _ => List.replicate 32 7) 1 [1] []
        (setAlgoIDHash SHA256h) 32 (fun x => .ok x) (fun x => .ok x)
      = .ok ((pkcs7_contentAttribsDigest (fun _ => List.replicate 32 7) 1 [1] []).take 32) :=
  claim_C2 (fun _ => List.replicate 32 7) 1 [1] [] (setAlgoIDHash SHA256h) 32
    (fun x => .ok x) (fun x => .ok x) (by decide) (by decide)

/-! ## Claim C3: RSA DigestInfo first with plain digest fallback -/

/-- The RSA verification loop accepts exactly when some iterated
certificate slot is nonempty, parses, key decodes, and its decrypted
signature block equals the candidate digest. -/
theorem rsaVerifyGo_nonneg_iff (env : RsaVerifyEnv) (hash : List Nat) (l : List Nat) :
    0 ≤ rsaVerifyGo env hash l ↔
      ∃ i ∈ l, env.certSz i ≠ 0 ∧ env.parseCertOk i = true ∧
        env.keyDecodeOk i = true ∧ env.rsaSSLVerify i = .ok hash := by
  induction l with
  | nil => simp [rsaVerifyGo, SIG_VERIFY_E]
  | cons i rest ih =>
    simp only [rsaVerifyGo, List.mem_cons]
    by_cases h1 : env.certSz i = 0
    · rw [if_pos h1, ih]
      constructor
      · rintro ⟨j, hj, hP⟩
        exact ⟨j, Or.inr hj, hP⟩
      · rintro ⟨j, rfl | hj, hP⟩
        · exact absurd h1 hP.1
        · exact ⟨j, hj, hP⟩
    · rw [if_neg h1]
      by_cases h2 : env.parseCertOk i
      · rw [if_neg (by simp [h2])]
        by_cases h3 : env.keyDecodeOk i
        · rw [if_neg (by simp [h3])]
          rcases henv : env.rsaSSLVerify i with e | blk
          · dsimp only
            rw [ih]
            constructor
            · rintro ⟨j, hj, hP⟩
              exact ⟨j, Or.inr hj, hP⟩
            · rintro ⟨j, rfl | hj, hP⟩
              · rw [henv] at hP
                exact absurd hP.2.2.2 (by simp)
              · exact ⟨j, hj, hP⟩
          · dsimp only
            by_cases h4 : blk = hash
            · subst h4
              simp only [if_pos rfl]
              constructor
              · intro _
                exact ⟨i, Or.inl rfl, h1, h2, h3, henv⟩
              · intro _
                exact Int.ofNat_nonneg blk.length
            · rw [if_neg h4, ih]
              constructor
              · rintro ⟨j, hj, hP⟩
                exact ⟨j, Or.inr hj, hP⟩
              · rintro ⟨j, rfl | hj, hP⟩
                · rw [henv] at hP
                  exact absurd hP.2.2.2 (by simp [h4])
                · exact ⟨j, hj, hP⟩
        · rw [if_pos (by simp [h3]), ih]
          constructor
          · rintro ⟨j, hj, hP⟩
            exact ⟨j, Or.inr hj, hP⟩
          · rintro ⟨j, rfl | hj, hP⟩
            · exact absurd hP.2.2.1 h3
            · exact ⟨j, hj, hP⟩
      · rw [if_pos (by simp [h2]), ih]
        constructor
        · rintro ⟨j, hj, hP⟩
          exact ⟨j, Or.inr hj, hP⟩
        · rintro ⟨j, rfl | hj, hP⟩
          · exact absurd hP.2.1 h2
          · exact ⟨j, hj, hP⟩

/-- Claim C3: for an RSA signer the decrypted signature block is
compared first against the DER DigestInfo form of the reconstructed
digest and, only when that fails, against the plain digest;
verification succeeds exactly when either candidate matches for some
retained certificate.  For an ECDSA signer only the plain digest is
used.  The two candidates are precisely the DigestInfo form and the
bare digest. -/
theorem claim_C3 (renv : RsaVerifyEnv) (eenv : EcdsaVerifyEnv) (H : List Nat → List Nat)
    (hashSz : Nat) (sa : List Nat) (saSz : Nat) (content : Option (List Nat))
    (hashBuf : Option (List Nat)) (algoId : List Nat) (p7d pld : List Nat)
    (hb : wc_PKCS7_BuildSignedDataDigest H hashSz sa saSz content hashBuf algoId
        = .ok (p7d, pld))
    (hplen : pld.length = hashSz) :
    (0 ≤ wc_PKCS7_SignedDataVerifySignature renv eenv RSAk H hashSz sa saSz content
          hashBuf algoId
      ↔ ∃ i ∈ List.range MAX_PKCS7_CERTS, renv.certSz i ≠ 0 ∧
          renv.parseCertOk i = true ∧ renv.keyDecodeOk i = true ∧
          (renv.rsaSSLVerify i = .ok p7d ∨ renv.rsaSSLVerify i = .ok pld))
  ∧ (0 ≤ wc_PKCS7_RsaVerify renv p7d →
      wc_PKCS7_SignedDataVerifySignature renv eenv RSAk H hashSz sa saSz content
          hashBuf algoId = wc_PKCS7_RsaVerify renv p7d)
  ∧ (wc_PKCS7_RsaVerify renv p7d < 0 →
      wc_PKCS7_SignedDataVerifySignature renv eenv RSAk H hashSz sa saSz content
          hashBuf algoId = wc_PKCS7_RsaVerify renv pld)
  ∧ wc_PKCS7_SignedDataVerifySignature renv eenv ECDSAk H hashSz sa saSz content
        hashBuf algoId = wc_PKCS7_EcdsaVerify eenv pld
  ∧ p7d = derDigestInfo algoId pld := by
  have hshape : p7d = setSequence (algoId.length + (setOctetString hashSz).length +
      hashSz) ++ algoId ++ setOctetString hashSz ++ pld := by
    simp only [wc_PKCS7_BuildSignedDataDigest] at hb
    split_ifs at hb
    all_goals simp only [Except.ok.injEq, Prod.mk.injEq, reduceCtorEq] at hb
    all_goals obtain ⟨hb1, hb2⟩ := hb
    all_goals subst hb1
    all_goals subst hb2
    all_goals rfl
  have hlast : p7d = derDigestInfo algoId pld := by
    rw [hshape]
    unfold derDigestInfo derSequence derOctetString
    rw [hplen]
    have hargs : (algoId ++ (setOctetString hashSz ++ pld)).length
        = algoId.length + (setOctetString hashSz).length + hashSz := by
      simp [hplen]
      omega
    rw [hargs]
    simp [List.append_assoc]
  have hmain : wc_PKCS7_SignedDataVerifySignature renv eenv RSAk H hashSz sa saSz
      content hashBuf algoId
      = if wc_PKCS7_RsaVerify renv p7d < 0 then wc_PKCS7_RsaVerify renv pld
        else wc_PKCS7_RsaVerify renv p7d := by
    unfold wc_PKCS7_SignedDataVerifySignature
    rw [hb]
    dsimp only
    rw [if_pos rfl]
  have hecc : wc_PKCS7_SignedDataVerifySignature renv eenv ECDSAk H hashSz sa saSz
      content hashBuf algoId = wc_PKCS7_EcdsaVerify eenv pld := by
    unfold wc_PKCS7_SignedDataVerifySignature
    rw [hb]
    dsimp only
    rw [if_neg (show ¬ (ECDSAk = RSAk) by decide), if_pos rfl]
  have hiff1 := rsaVerifyGo_nonneg_iff renv p7d (List.range MAX_PKCS7_CERTS)
  have hiff2 := rsaVerifyGo_nonneg_iff renv pld (List.range MAX_PKCS7_CERTS)
  refine ⟨?_, ?_, ?_, hecc, hlast⟩
  · rw [hmain]
    by_cases hr : wc_PKCS7_RsaVerify renv p7d < 0
    · rw [if_pos hr]
      unfold wc_PKCS7_RsaVerify at hr hiff1 ⊢
      constructor
      · intro h0
        obtain ⟨i, hi, hc1, hc2, hc3, hc4⟩ := hiff2.1 h0
        exact ⟨i, hi, hc1, hc2, hc3, Or.inr hc4⟩
      · rintro ⟨i, hi, hc1, hc2, hc3, hc4 | hc4⟩
        · exact absurd (hiff1.2 ⟨i, hi, hc1, hc2, hc3, hc4⟩) (by omega)
        · exact hiff2.2 ⟨i, hi, hc1, hc2, hc3, hc4⟩
    · rw [if_neg hr]
      unfold wc_PKCS7_RsaVerify at hr hiff1 ⊢
      constructor
      · intro h0
        obtain ⟨i, hi, hc1, hc2, hc3, hc4⟩ := hiff1.1 (by omega)
        exact ⟨i, hi, hc1, hc2, hc3, Or.inl hc4⟩
      · intro _
        omega
  · intro h0
    rw [hmain, if_neg (by omega)]
  · intro h0
    rw [hmain, if_pos h0]

/-- Witness for claim C3 at concrete inputs: one retained certificate
whose decrypted block equals the DigestInfo candidate. -/
theorem claim_C3_witness :
    (0 ≤ wc_PKCS7_SignedDataVerifySignature
          { certSz := fun i => if i = 0 then 10 else 0,
            parseCertOk := fun _ => true, keyDecodeOk := fun _ => true,
            rsaSSLVerify := fun i =>
              if i = 0 then .ok [0x30, 5, 0x06, 0x04, 0x02, 1, 2]
              else .error RSA_PAD_E }
          { certSz := fun _ => 0, parseCertOk := fun _ => true,
            eccKeyDecode := fun _ => none, eccVerifyOk := fun _ _ => false }
          RSAk (fun _ => [1, 2]) 2 [0xAA] 1 none none [0x06]
      ↔ ∃ i ∈ List.range MAX_PKCS7_CERTS,
          (fun j => if j = 0 then 10 else 0) i ≠ 0 ∧ true = true ∧ true = true ∧
          ((if i = 0 then Except.ok [0x30, 5, 0x06, 0x04, 0x02, 1, 2]
            else Except.error RSA_PAD_E) = .ok [0x30, 5, 0x06, 0x04, 0x02, 1, 2] ∨
           (if i = 0 then Except.ok [0x30, 5, 0x06, 0x04, 0x02, 1, 2]
            else Except.error RSA_PAD_E) = .ok [1, 2])) :=
  (claim_C3
    { certSz := fun i => if i = 0 then 10 else 0,
      parseCertOk := fun _ => true, keyDecodeOk := fun _ => true,
      rsaSSLVerify := fun i =>
        if i = 0 then .ok [0x30, 5, 0x06, 0x04, 0x02, 1, 2]
        else .error RSA_PAD_E }
    { certSz := fun _ => 0, parseCertOk := fun _ => true,
      eccKeyDecode := fun _ => none, eccVerifyOk := fun _ _ => false }
    (fun _ => [1, 2]) 2 [0xAA] 1 none none [0x06]
    [0x30, 5, 0x06, 0x04, 0x02, 1, 2] [1, 2] rfl rfl).1

/-! ## Claim C4: certificate loop key selection -/

/-- Claim C4 fails on the code for ECDSA: wc_PKCS7_EcdsaVerify parses
each candidate certificate but decodes the verification key from the
session publicKey buffer (pkcs7.c line 1812), not from the candidate,
and the decode cursor persists across iterations.  At a concrete
scenario where the second certificate would verify with its own
extracted key, the code returns SIG_VERIFY_E while the behaviour
written in the spec accepts. -/
theorem claim_C4_code_vs_spec :
    wc_PKCS7_EcdsaVerify c4_env c4_hash = SIG_VERIFY_E
  ∧ wc_PKCS7_EcdsaVerify_specModel c4_env.certSz c4_env.parseCertOk c4_certKey
      c4_env.eccVerifyOk c4_hash = 0 :=
  ⟨rfl, rfl⟩

/-! ## Claim C5: recipient walk with a non matching first recipient -/

/-- Claim C5 fails on the code: for a RecipientInfos SET of two KTRI
recipients of which only the second matches, wc_PKCS7_DecodeKtri still
RSA-decrypts the never-filled scratch buffer for the first recipient
(pkcs7.c lines 4384 and 4433) and the walk aborts with that decryption
error, while the walk written in the spec skips the non matching
recipient and decrypts the second key. -/
theorem claim_C5_code_vs_spec :
    wc_PKCS7_DecodeRecipientInfos c5_sess [.ktri c5_r1, .ktri c5_r2] false c5_stale []
      = .error RSA_PAD_E
  ∧ decodeRecipientInfos_specModel c5_sess [.ktri c5_r1, .ktri c5_r2]
      = .ok [7, 7, 7] :=
  ⟨rfl, rfl⟩

/-! ## Claim C6: the degenerate policy -/

/-- Claim C6: for an input whose digestAlgorithms SET is empty (the
degenerate flag) and whose signerInfos SET is empty, decoding returns
success 0 with no signature verification when degenerate bundles are
allowed (the default), and PKCS7_NO_SIGNER_E when they are forbidden. -/
theorem claim_C6 (m : List Nat) (verifySigner : Nat → Except Int Unit)
    (i1 i2 i3 : Nat) (certsLoaded : Bool)
    (h1 : vsdParseToDigestAlgos m = .ok (i1, true))
    (h2 : vsdParseContentCerts m i1 true = .ok (i2, certsLoaded))
    (h3 : getSet m i2 m.length = some (0, i3)) :
    PKCS7_VerifySignedData verifySigner false m = .ok 0
  ∧ PKCS7_VerifySignedData verifySigner true m = .error PKCS7_NO_SIGNER_E := by
  constructor
  · unfold PKCS7_VerifySignedData
    rw [h1]
    dsimp only
    rw [if_neg (by simp), h2]
    dsimp only
    rw [h3]
    dsimp only
    cases certsLoaded <;> simp
  · unfold PKCS7_VerifySignedData
    rw [h1]
    dsimp only
    rw [if_pos (by simp)]

/-- Witness for claim C6: the concrete minimal degenerate SignedData
message, decoded under both policies. -/
theorem claim_C6_witness :
    PKCS7_VerifySignedData (fun _ => .ok ()) false c6_msg = .ok 0
  ∧ PKCS7_VerifySignedData (fun _ => .ok ()) true c6_msg
      = .error PKCS7_NO_SIGNER_E :=
  claim_C6 c6_msg (fun _ => .ok ()) 22 35 37 false rfl rfl rfl

/-! ## Claim C10: unvalidated positional pad strip -/

/-- Claim C10: the decoders take the pad length from the last decrypted
byte with no range validation.  On the concrete EnvelopedData message,
a decryption ending in byte 200 yields the negative plaintext length
16 - 200 = -184; on the concrete EncryptedData message with declared
output capacity 1, a decryption ending in byte 1 makes the decoder copy
15 bytes, exceeding the capacity, which is never consulted. -/
theorem claim_C10 :
    wc_PKCS7_DecodeEnvelopedData RSAk true c10_recipWalk c10_decFnNeg c10_env_msg 50
      = .ok (-184, [])
  ∧ wc_PKCS7_DecodeEncryptedData c10_decFnOne (List.replicate 16 0) c8_msgA 1
      = .ok (15, 65 :: List.replicate 14 15)
  ∧ (15 : Int) > 1 :=
  ⟨rfl, rfl, by decide⟩

/-! ## Claim C8: EncryptedData version rules -/

/-- A list that contains a given block at the fifth position of a right
nested append chain has that block as an affix. -/
theorem exists_affix5_ok (c1 c2 c3 c4 v r : List Nat) :
    ∃ p s, (Except.ok (c1 ++ (c2 ++ (c3 ++ (c4 ++ (v ++ r))))) : Except Int (List Nat))
      = .ok (p ++ (v ++ s)) :=
  ⟨c1 ++ (c2 ++ (c3 ++ c4)), r, by simp [List.append_assoc]⟩

/-- Every successful EncryptedData encode carries the version segment
(2 with unprotected attributes, 0 without) right after the EncryptedData
sequence header. -/
theorem encodeEncryptedData_shape (a : EncryptedDataIn) (outputSz : Nat) :
    (∃ e, wc_PKCS7_EncodeEncryptedData a outputSz = .error e) ∨
    (∃ p s, wc_PKCS7_EncodeEncryptedData a outputSz
      = .ok (p ++ (setMyVersion (if a.unprotectedAttribs.length > 0 then 2 else 0) ++ s))) := by
  unfold wc_PKCS7_EncodeEncryptedData
  by_cases hat : a.unprotectedAttribs.length = 0
  · have hgt : ¬ (a.unprotectedAttribs.length > 0) := by omega
    have hne : ¬ (a.unprotectedAttribs.length ≠ 0) := by omega
    simp only [if_neg hgt, if_neg hne]
    split_ifs
    all_goals try exact Or.inl ⟨_, rfl⟩
    all_goals cases hpd : (wc_PKCS7_PadData a.content
        (a.content.length + (wc_PKCS7_GetOIDBlockSize a.encryptOID).toNat)
        (wc_PKCS7_GetOIDBlockSize a.encryptOID).toNat)
    all_goals dsimp only
    all_goals try exact Or.inl ⟨_, rfl⟩
    all_goals try split_ifs
    all_goals try exact Or.inl ⟨_, rfl⟩
    all_goals right
    all_goals simp only [List.append_assoc]
    all_goals exact exists_affix5_ok _ _ _ _ _ _
  · have hgt : a.unprotectedAttribs.length > 0 := by omega
    simp only [if_pos hgt, if_pos hat]
    split_ifs
    all_goals try exact Or.inl ⟨_, rfl⟩
    all_goals cases hpd : (wc_PKCS7_PadData a.content
        (a.content.length + (wc_PKCS7_GetOIDBlockSize a.encryptOID).toNat)
        (wc_PKCS7_GetOIDBlockSize a.encryptOID).toNat)
    all_goals dsimp only
    all_goals try exact Or.inl ⟨_, rfl⟩
    all_goals try split_ifs
    all_goals try exact Or.inl ⟨_, rfl⟩
    all_goals right
    all_goals simp only [List.append_assoc]
    all_goals exact exists_affix5_ok _ _ _ _ _ _

/-- Claim C8: the encoder writes version 2 when the session has
unprotected attributes and 0 otherwise; the decoder accepts exactly
when the version matches the attribute presence observed after the
content, re-validating the version only after the attributes are read,
and rejects with ASN_VERSION_E otherwise. -/
theorem claim_C8 (a : EncryptedDataIn) (outputSz : Nat) (out : List Nat)
    (henc : wc_PKCS7_EncodeEncryptedData a outputSz = .ok out)
    (decFn : List Nat → Except Int (List Nat)) (ekey m : List Nat) (outSz2 : Nat)
    (version i0 : Nat) (ec : List Nat) (i1 : Nat) (dec : List Nat)
    (hk : ekey.length ≠ 0) (hm : m.length ≠ 0) (ho : outSz2 ≠ 0)
    (hh : dedParseHeader m = .ok (version, i0))
    (hc : dedParseEncContent m i0 = .ok (ec, i1))
    (hd : decFn ec = .ok dec)
    (ha : i1 < m.length → ∃ k, wc_PKCS7_DecodeUnprotectedAttributes m i1 = .ok k) :
    (∃ p s, out = p ++
        setMyVersion (if a.unprotectedAttribs.length > 0 then 2 else 0) ++ s)
  ∧ ((∃ r, wc_PKCS7_DecodeEncryptedData decFn ekey m outSz2 = .ok r) ↔
      ((¬ i1 < m.length ∧ version = 0) ∨ (i1 < m.length ∧ version = 2)))
  ∧ (¬ ((¬ i1 < m.length ∧ version = 0) ∨ (i1 < m.length ∧ version = 2)) →
      wc_PKCS7_DecodeEncryptedData decFn ekey m outSz2 = .error ASN_VERSION_E) := by
  have henc2 : ∃ p s, out = p ++
      setMyVersion (if a.unprotectedAttribs.length > 0 then 2 else 0) ++ s := by
    rcases encodeEncryptedData_shape a outputSz with ⟨e, he⟩ | ⟨p, s, hok⟩
    · rw [henc] at he
      exact Except.noConfusion he
    · rw [henc] at hok
      have h := Except.ok.inj hok
      exact ⟨p, s, by rw [h]; simp [List.append_assoc]⟩
  have hded : wc_PKCS7_DecodeEncryptedData decFn ekey m outSz2
      = if (¬ i1 < m.length ∧ version ≠ 0) ∨ (i1 < m.length ∧ version ≠ 2) then
          .error ASN_VERSION_E
        else .ok ((ec.length : Int) - (dec.getD (ec.length - 1) 0 : Nat),
          dec.take ((ec.length : Int) - (dec.getD (ec.length - 1) 0 : Nat)).toNat) := by
    unfold wc_PKCS7_DecodeEncryptedData
    rw [if_neg hk, if_neg (by omega), hh]
    dsimp only
    rw [hc]
    dsimp only
    rw [hd]
    dsimp only
    by_cases hattr : i1 < m.length
    · obtain ⟨k, hk2⟩ := ha hattr
      rw [if_pos hattr, hk2]
    · rw [if_neg hattr]
  refine ⟨henc2, ?_, ?_⟩
  · rw [hded]
    by_cases hcond : (¬ i1 < m.length ∧ version ≠ 0) ∨ (i1 < m.length ∧ version ≠ 2)
    · rw [if_pos hcond]
      constructor
      · rintro ⟨r, hr⟩
        exact Except.noConfusion hr
      · intro h
        exfalso
        rcases h with ⟨h1, h2⟩ | ⟨h1, h2⟩ <;> rcases hcond with ⟨g1, g2⟩ | ⟨g1, g2⟩ <;>
          first | exact g2 h2 | exact g1 h1 | exact h1 g1
    · rw [if_neg hcond]
      constructor
      · intro _
        by_cases hattr : i1 < m.length
        · refine Or.inr ⟨hattr, ?_⟩
          by_contra hv
          exact hcond (Or.inr ⟨hattr, hv⟩)
        · refine Or.inl ⟨hattr, ?_⟩
          by_contra hv
          exact hcond (Or.inl ⟨hattr, hv⟩)
      · intro _
        exact ⟨_, rfl⟩
  · intro hneg
    rw [hded, if_pos ?_]
    by_cases hattr : i1 < m.length
    · refine Or.inr ⟨hattr, ?_⟩
      intro hv
      exact hneg (Or.inr ⟨hattr, hv⟩)
    · refine Or.inl ⟨hattr, ?_⟩
      intro hv
      exact hneg (Or.inl ⟨hattr, hv⟩)

set_option maxRecDepth 8192 in
/-- Witness for claim C8 at the concrete one-attribute session: the
encoder output carries version 2 and the identity-cipher decode of it
succeeds, matching the attribute-presence condition. -/
theorem claim_C8_witness :
    (∃ p s, c8_msgB = p ++
        setMyVersion (if c8_argsB.unprotectedAttribs.length > 0 then 2 else 0) ++ s)
  ∧ ((∃ r, wc_PKCS7_DecodeEncryptedData (fun c => .ok c) (List.replicate 16 0) c8_msgB 50
        = .ok r) ↔
      ((¬ 82 < c8_msgB.length ∧ 2 = 0) ∨ (82 < c8_msgB.length ∧ 2 = 2)))
  ∧ (¬ ((¬ 82 < c8_msgB.length ∧ 2 = 0) ∨ (82 < c8_msgB.length ∧ 2 = 2)) →
      wc_PKCS7_DecodeEncryptedData (fun c => .ok c) (List.replicate 16 0) c8_msgB 50
        = .error ASN_VERSION_E) :=
  claim_C8 c8_argsB 200 c8_msgB (by rfl) (fun c => .ok c) (List.replicate 16 0) c8_msgB 50
    2 20 [65, 15, 15, 15, 15, 15, 15, 15, 15, 15, 15, 15, 15, 15, 15, 15] 82
    [65, 15, 15, 15, 15, 15, 15, 15, 15, 15, 15, 15, 15, 15, 15, 15]
    (by decide) (by decide) (by decide) (by rfl) (by rfl) (by rfl)
    (fun _ => ⟨1, by rfl⟩)

/-- Claim C9: with valid session arguments, the detached SignedData
encode consumes the externally supplied digest and never reads the
content region, succeeding (up to output buffer capacity, BUFFER_E)
even when content is absent; a supplied digest size that does not match
the configured hash is rejected with BUFFER_E; and the single buffer
encode over a populated content region likewise succeeds up to buffer
capacity. -/
theorem claim_C9 (a : EncodeSignedArgs) (hb : List Nat) (hashSz outputSz n2 : Nat)
    (hc0 : a.contentSz ≠ 0) (he0 : a.encryptOID ≠ 0) (hh0 : a.hashOID ≠ 0)
    (hrng : a.rngSet) (ho0 : outputSz ≠ 0) (hs0 : hashSz ≠ 0)
    (hsid : a.sidType = SID_ISSUER_AND_SERIAL_NUMBER)
    (halgo : ∃ t, wc_PKCS7_SignedDataGetEncAlgoId a.publicKeyOID a.hashOID = .ok t)
    (hbs1 : ∃ sig, wc_PKCS7_SignedDataBuildSignature a.publicKeyOID a.hFn
      a.signedAttribsCount (if a.signedAttribsCount ≠ 0 then a.flatSignedAttribs else [])
      hb (setAlgoIDHash a.hashOID) hashSz a.signFn a.signFn = .ok sig)
    (hbs3 : ∀ c, a.content = some c → ∃ sig, wc_PKCS7_SignedDataBuildSignature
      a.publicKeyOID a.hFn a.signedAttribsCount
      (if a.signedAttribsCount ≠ 0 then a.flatSignedAttribs else [])
      (a.hFn c) (setAlgoIDHash a.hashOID)
      (wc_HashGetDigestSize_oid a.hashOID).toNat a.signFn a.signFn = .ok sig) :
    (wc_HashGetDigestSize_oid a.hashOID = (hashSz : Int) →
      (∃ head foot, wc_PKCS7_EncodeSignedData_ex a (some hb) hashSz outputSz n2
          = .ok (head, some foot)) ∨
      wc_PKCS7_EncodeSignedData_ex a (some hb) hashSz outputSz n2 = .error BUFFER_E)
  ∧ (wc_HashGetDigestSize_oid a.hashOID ≠ (hashSz : Int) →
      wc_PKCS7_EncodeSignedData_ex a (some hb) hashSz outputSz n2 = .error BUFFER_E)
  ∧ (∀ c, a.content = some c → 0 < wc_HashGetDigestSize_oid a.hashOID →
      (∃ out, wc_PKCS7_EncodeSignedData a outputSz = .ok out) ∨
      wc_PKCS7_EncodeSignedData a outputSz = .error BUFFER_E) := by
  have hguard : ¬ (a.contentSz = 0 ∨ a.encryptOID = 0 ∨ a.hashOID = 0 ∨
      ¬ a.rngSet ∨ outputSz = 0 ∨ hashSz = 0 ∨ (some hb : Option (List Nat)) = none) := by
    simp [hc0, he0, hh0, hrng, ho0, hs0]
  refine ⟨?_, ?_, ?_⟩
  · intro hdig
    unfold wc_PKCS7_EncodeSignedData_ex PKCS7_EncodeSigned
    rw [if_neg hguard, if_neg (by rw [hdig]; simp)]
    dsimp only
    rw [if_pos hsid]
    dsimp only
    obtain ⟨t, ht⟩ := halgo
    rw [ht]
    dsimp only
    obtain ⟨sig, hsg⟩ := hbs1
    simp only [Option.getD_some]
    rw [hsg]
    dsimp only
    split_ifs
    all_goals try dsimp only
    all_goals try exact Or.inr rfl
    all_goals try split_ifs
    all_goals try exact Or.inr rfl
    all_goals exact Or.inl ⟨_, _, rfl⟩
  · intro hdig
    unfold wc_PKCS7_EncodeSignedData_ex PKCS7_EncodeSigned
    rw [if_neg hguard, if_pos hdig]
  · intro c hcs hd
    have hs0i : (wc_HashGetDigestSize_oid a.hashOID).toNat ≠ 0 := by omega
    have hguard2 : ¬ (a.contentSz = 0 ∨ a.encryptOID = 0 ∨ a.hashOID = 0 ∨
        ¬ a.rngSet ∨ outputSz = 0 ∨ (wc_HashGetDigestSize_oid a.hashOID).toNat = 0 ∨
        (some (a.hFn (a.content.getD [])) : Option (List Nat)) = none) := by
      simp [hc0, he0, hh0, hrng, ho0, hs0i]
    unfold wc_PKCS7_EncodeSignedData
    rw [if_neg (by simp [hc0, hcs]), if_neg (by omega)]
    unfold PKCS7_EncodeSigned
    rw [if_neg hguard2, if_neg (by omega)]
    dsimp only
    rw [if_pos hsid]
    dsimp only
    obtain ⟨t, ht⟩ := halgo
    rw [ht]
    dsimp only
    obtain ⟨sig, hsg⟩ := hbs3 c hcs
    rw [hcs]
    simp only [Option.getD_some]
    rw [hsg]
    dsimp only
    split_ifs
    all_goals try dsimp only
    all_goals try exact Or.inr rfl
    all_goals exact Or.inl ⟨_, rfl⟩

set_option maxRecDepth 8192 in
/-- Witness for claim C9 at a concrete session with no content region
and an externally supplied thirty-two byte SHA-256 digest. -/
theorem claim_C9_witness :
    (wc_HashGetDigestSize_oid c9_args.hashOID = ((32 : Nat) : Int) →
      (∃ head foot, wc_PKCS7_EncodeSignedData_ex c9_args (some (List.replicate 32 0))
          32 1000 1000 = .ok (head, some foot)) ∨
      wc_PKCS7_EncodeSignedData_ex c9_args (some (List.replicate 32 0)) 32 1000 1000
        = .error BUFFER_E)
  ∧ (wc_HashGetDigestSize_oid c9_args.hashOID ≠ ((32 : Nat) : Int) →
      wc_PKCS7_EncodeSignedData_ex c9_args (some (List.replicate 32 0)) 32 1000 1000
        = .error BUFFER_E)
  ∧ (∀ c, c9_args.content = some c → 0 < wc_HashGetDigestSize_oid c9_args.hashOID →
      (∃ out, wc_PKCS7_EncodeSignedData c9_args 1000 = .ok out) ∨
      wc_PKCS7_EncodeSignedData c9_args 1000 = .error BUFFER_E) :=
  claim_C9 c9_args (List.replicate 32 0) 32 1000 1000
    (by decide) (by decide) (by decide) (by decide) (by decide) (by decide) (by decide)
    ⟨CTC_SHA256wRSA, by rfl⟩
    ⟨[1, 2, 3, 4], by rfl⟩
    (fun c hc => Option.noConfusion (show (none : Option (List Nat)) = some c from hc))
